import Mathlib

/-!
# DisplayInfo platform implementation (DeviceSettings back end)

A shallow embedding of `DisplayInfo/DeviceSettings/PlatformImplementation.cpp`
(class `DisplayInfoImplementation`) together with the properties of its
capability decoding, EDID exposure, HDCP query, frame-rate cache and observer
registry.

Conventions of the embedding

* `uint8_t`, `uint16_t`, `uint32_t` values are natural numbers; where the source
  arithmetic can leave the range of the type the reduction `% 65536` is written
  out explicitly.
* `int` values are integers; `a & b` is `Int.land a b` and a C++ condition on an
  `int` is a comparison with `0`.
* A call into the device layer that may throw `device::Exception` yields an
  `Option`; `none` is the thrown exception, which every `catch` block of the
  source swallows.
* An out-parameter is modelled by passing the caller's value in and returning
  the value the variable holds when the call returns.
-/

namespace DisplayInfo

/-! ## Types declared outside the translated file -/

/-- Modelled from the spec: `Core::ERROR_NONE` and `Core::ERROR_GENERAL` are
declared by the framework, outside the translated file; the spec speaks of a
success status and of one "generic failure status code". -/
inductive ErrorCode where
  | ERROR_NONE
  | ERROR_GENERAL
  deriving DecidableEq, Repr

/-- Modelled from the spec: `Exchange::IHDRProperties::HDRType` is declared by the
interface header, outside the translated file; these are the "HDR format tags"
that the source pushes. -/
inductive HDRType where
  | HDR_OFF
  | HDR_10
  | HDR_HLG
  | HDR_DOLBYVISION
  | HDR_TECHNICOLOR
  deriving DecidableEq, Repr

/-- The enumerators of `dsHDRStandard_t` that the source tests.  The header that
declares them is outside the translated file, so their values are a parameter of
the embedding. -/
structure DsHDRStandard where
  dsHDRSTANDARD_NONE : Int
  dsHDRSTANDARD_HDR10 : Int
  dsHDRSTANDARD_HLG : Int
  dsHDRSTANDARD_DolbyVision : Int
  dsHDRSTANDARD_TechnicolorPrime : Int
  dsHDRSTANDARD_Invalid : Int

/-- Modelled from the spec: the header declaring `dsHDRStandard_t` is missing
from the sources; the spec describes a zero "none" value and five recognized
standard bits (HDR10, HLG, Dolby Vision, Technicolor, invalid), each
independently testable.  These are the single-bit values of the device-settings
header: `0x01`, `0x02`, `0x04`, `0x08` and `0x80`. -/
def dsTypes : DsHDRStandard :=
  { dsHDRSTANDARD_NONE := 0
    dsHDRSTANDARD_HDR10 := 1
    dsHDRSTANDARD_HLG := 2
    dsHDRSTANDARD_DolbyVision := 4
    dsHDRSTANDARD_TechnicolorPrime := 8
    dsHDRSTANDARD_Invalid := 128 }

/-! ## HDR capability decoding -/

/-- One statement `if (cond) hdrCapabilities.push_back(tag);`. -/
def pushIf (cond : Bool) (tag : HDRType) (hdrCapabilities : List HDRType) : List HDRType :=
  if cond then hdrCapabilities ++ [tag] else hdrCapabilities

/-- The six independent tests that close both `TVCapabilities` and
`STBCapabilities`, applied to an initially empty `hdrCapabilities` list. -/
def hdrCapabilitiesOf (ds : DsHDRStandard) (capabilities : Int) : List HDRType :=
  let l0 : List HDRType := []
  let l1 := pushIf (decide (capabilities = 0)) HDRType.HDR_OFF l0
  let l2 := pushIf (decide (Int.land capabilities ds.dsHDRSTANDARD_HDR10 ≠ 0)) HDRType.HDR_10 l1
  let l3 := pushIf (decide (Int.land capabilities ds.dsHDRSTANDARD_HLG ≠ 0)) HDRType.HDR_HLG l2
  let l4 := pushIf (decide (Int.land capabilities ds.dsHDRSTANDARD_DolbyVision ≠ 0))
    HDRType.HDR_DOLBYVISION l3
  let l5 := pushIf (decide (Int.land capabilities ds.dsHDRSTANDARD_TechnicolorPrime ≠ 0))
    HDRType.HDR_TECHNICOLOR l4
  pushIf (decide (Int.land capabilities ds.dsHDRSTANDARD_Invalid ≠ 0)) HDRType.HDR_OFF l5

/-- Body shared by `TVCapabilities` and `STBCapabilities` once the device layer has
been asked: `capabilities` starts as `dsHDRSTANDARD_NONE` and is overwritten only
by a query that returned. -/
def capabilitiesAfterQuery (ds : DsHDRStandard) (query : Option Int) : Int :=
  match query with
  | some capabilities => capabilities
  | none => ds.dsHDRSTANDARD_NONE

/-! ## The device layer -/

/-- Modelled from the spec: `device::FrameRate` is declared by the device layer,
outside the translated file; these are the eight "supported frame-rate
enumerations" that `UpdateFrameRate` compares with, and every other value of the
enumeration is `other`. -/
inductive FrameRate where
  | k24
  | k25
  | k30
  | k60
  | k23dot98
  | k29dot97
  | k50
  | k59dot94
  | other (id : Nat)
  deriving DecidableEq, Repr

/-- Modelled from the spec: `dsHdcpProtocolVersion_t` is declared by the device
layer, outside the translated file; these are the "three supported device tiers"
named by the source, and any other integer returned by `GetHdmiPreference` is
`other`. -/
inductive dsHdcpProtocolVersion_t where
  | dsHDCP_VERSION_1X
  | dsHDCP_VERSION_2X
  | dsHDCP_VERSION_MAX
  | other (v : Int)
  deriving DecidableEq, Repr

/-- Modelled from the spec: `IConnectionProperties::HDCPProtectionType` is declared
by the interface header, outside the translated file.  The source names the three
tiers `HDCP_1X`, `HDCP_2X` and `HDCP_AUTO`; the unencrypted tier is the one its
trace message and the spec ("AUTO/unencrypted default") speak of. -/
inductive HDCPProtectionType where
  | HDCP_Unencrypted
  | HDCP_1X
  | HDCP_2X
  | HDCP_AUTO
  deriving DecidableEq, Repr

/-- Result of `vPort.getResolution()`. -/
structure VideoResolution where
  getFrameRate : FrameRate

/-- What a `device::VideoOutputPort` answers to the queries of the source; `none`
is a thrown `device::Exception`. -/
structure VideoOutputPort where
  getName : String
  isDisplayConnected : Option Bool
  getEDIDBytes : Option (List Nat)
  getTVHDRCapabilities : Option Int
  GetHdmiPreference : Option dsHdcpProtocolVersion_t
  getResolution : Option VideoResolution

/-- What `device::Host::getInstance()` answers. `getHDRCapabilities` is the query
`getVideoDevices().at(0).getHDRCapabilities(&capabilities)`. -/
structure Host where
  getVideoOutputPorts : Option (List VideoOutputPort)
  getVideoOutputPort : String → Option VideoOutputPort
  getHDRCapabilities : Option Int

/-! ## Port selection and HDCP -/

/-- The `for` loop of `PortName`: `some name` is the value of `name` when the loop
is left, `none` an exception thrown by `isDisplayConnected`. -/
def PortName.loop : List VideoOutputPort → String → Option String
  | [], name => some name
  | vPort :: rest, name =>
    match vPort.isDisplayConnected with
    | none => none
    | some true => some vPort.getName
    | some false => PortName.loop rest name

/-- `uint32_t PortName (string& name) const`. -/
def PortName (host : Host) (name : String) : ErrorCode × String :=
  match host.getVideoOutputPorts with
  | none => (ErrorCode.ERROR_NONE, name)
  | some vPorts =>
    match PortName.loop vPorts name with
    | none => (ErrorCode.ERROR_NONE, name)
    | some found => (ErrorCode.ERROR_NONE, found)

/-- The `switch` of `HDCPProtection` (get); it has no `default` label. -/
def HDCPProtection.decode (hdcpversion : dsHdcpProtocolVersion_t)
    (value : HDCPProtectionType) : HDCPProtectionType :=
  match hdcpversion with
  | dsHdcpProtocolVersion_t.dsHDCP_VERSION_1X => HDCPProtectionType.HDCP_1X
  | dsHdcpProtocolVersion_t.dsHDCP_VERSION_2X => HDCPProtectionType.HDCP_2X
  | dsHdcpProtocolVersion_t.dsHDCP_VERSION_MAX => HDCPProtectionType.HDCP_AUTO
  | dsHdcpProtocolVersion_t.other _ => value

/-- `uint32_t HDCPProtection(HDCPProtectionType& value) const` (get).  The local
`hdcpversion = 1` only feeds the trace message of the `else` branch. -/
def HDCPProtection (host : Host) (value : HDCPProtectionType) :
    ErrorCode × HDCPProtectionType :=
  let portname := (PortName host "").2
  if portname ≠ "" then
    match host.getVideoOutputPort portname with
    | none => (ErrorCode.ERROR_NONE, value)
    | some vPort =>
      match vPort.GetHdmiPreference with
      | none => (ErrorCode.ERROR_NONE, value)
      | some hdcpversion => (ErrorCode.ERROR_NONE, HDCPProtection.decode hdcpversion value)
  else
    (ErrorCode.ERROR_NONE, value)

/-- The `switch` of `HDCPProtection` (set); `hdcpversion` starts as
`dsHDCP_VERSION_MAX` and there is no `default` label. -/
def HDCPProtectionSet.encode (value : HDCPProtectionType) : dsHdcpProtocolVersion_t :=
  match value with
  | HDCPProtectionType.HDCP_1X => dsHdcpProtocolVersion_t.dsHDCP_VERSION_1X
  | HDCPProtectionType.HDCP_2X => dsHdcpProtocolVersion_t.dsHDCP_VERSION_2X
  | HDCPProtectionType.HDCP_AUTO => dsHdcpProtocolVersion_t.dsHDCP_VERSION_MAX
  | HDCPProtectionType.HDCP_Unencrypted => dsHdcpProtocolVersion_t.dsHDCP_VERSION_MAX

/-- `uint32_t HDCPProtection(const HDCPProtectionType value)` (set).  The second
component is the version handed to `SetHdmiPreference`, if that call is made. -/
def HDCPProtectionSet (host : Host) (value : HDCPProtectionType) :
    ErrorCode × Option dsHdcpProtocolVersion_t :=
  let portname := (PortName host "").2
  if portname ≠ "" then
    match host.getVideoOutputPort portname with
    | none => (ErrorCode.ERROR_NONE, none)
    | some _ => (ErrorCode.ERROR_NONE, some (HDCPProtectionSet.encode value))
  else
    (ErrorCode.ERROR_NONE, none)

/-! ## Display size from the EDID -/

/-- `#define EDID_MAX_HORIZONTAL_SIZE 21`. -/
def EDID_MAX_HORIZONTAL_SIZE : Nat := 21

/-- `#define EDID_MAX_VERTICAL_SIZE 22`. -/
def EDID_MAX_VERTICAL_SIZE : Nat := 22

/-- `uint32_t WidthInCentimeters(uint8_t& width) const`; the second component
is `width` when the call returns. -/
def WidthInCentimeters (host : Host) (width : Nat) : ErrorCode × Nat :=
  match host.getVideoOutputPort "HDMI0" with
  | none => (ErrorCode.ERROR_NONE, width)
  | some vPort =>
    match vPort.isDisplayConnected with
    | none => (ErrorCode.ERROR_NONE, width)
    | some false => (ErrorCode.ERROR_NONE, width)
    | some true =>
      match vPort.getEDIDBytes with
      | none => (ErrorCode.ERROR_NONE, width)
      | some edidVec =>
        if edidVec.length > EDID_MAX_VERTICAL_SIZE then
          (ErrorCode.ERROR_NONE, edidVec.getD EDID_MAX_HORIZONTAL_SIZE 0)
        else
          (ErrorCode.ERROR_NONE, width)

/-- `uint32_t HeightInCentimeters(uint8_t& height) const`; the second component
is `height` when the call returns. -/
def HeightInCentimeters (host : Host) (height : Nat) : ErrorCode × Nat :=
  match host.getVideoOutputPort "HDMI0" with
  | none => (ErrorCode.ERROR_NONE, height)
  | some vPort =>
    match vPort.isDisplayConnected with
    | none => (ErrorCode.ERROR_NONE, height)
    | some false => (ErrorCode.ERROR_NONE, height)
    | some true =>
      match vPort.getEDIDBytes with
      | none => (ErrorCode.ERROR_NONE, height)
      | some edidVec =>
        if edidVec.length > EDID_MAX_VERTICAL_SIZE then
          (ErrorCode.ERROR_NONE, edidVec.getD EDID_MAX_VERTICAL_SIZE 0)
        else
          (ErrorCode.ERROR_NONE, height)

/-! ## EDID exposure -/

/-- The initial value of `edidVec`: the bytes of `'u','n','k','n','o','w','n'`. -/
def unknown : List Nat := [117, 110, 107, 110, 111, 119, 110]

/-- The `try` block of `EDID`: the value of `edidVec` after it. -/
def EDID.fetch (host : Host) : List Nat :=
  match host.getVideoOutputPort "HDMI0" with
  | none => unknown
  | some vPort =>
    match vPort.isDisplayConnected with
    | none => unknown
    | some false => unknown
    | some true =>
      match vPort.getEDIDBytes with
      | none => unknown
      | some edidVec2 => edidVec2

/-- The loop `for (; paddingSize < (3-size%3); paddingSize++) edidVec.push_back(0x00);`
run for at most `fuel` iterations from the given `paddingSize` and `edidVec`;
the result is the final `paddingSize` and `edidVec`. -/
def EDID.padLoop (size : Nat) : Nat → Nat → List Nat → Nat × List Nat
  | 0, paddingSize, edidVec => (paddingSize, edidVec)
  | fuel + 1, paddingSize, edidVec =>
    if paddingSize < 3 - size % 3 then
      EDID.padLoop size fuel (paddingSize + 1) (edidVec ++ [0])
    else
      (paddingSize, edidVec)

/-- Lines 408 to 418 of `EDID`: the clamp of the size to `uint16_t`, the padding
loop (which runs at most three times) and `size += paddingSize` in `uint16_t`
arithmetic.  The result is the padded `edidVec` and the final `size`. -/
def EDID.pad (edidVec : List Nat) : List Nat × Nat :=
  let size := min edidVec.length 65535
  let r := EDID.padLoop size 3 0 edidVec
  (r.2, (size + r.1) % 65536)

/-- The loop `for (i; i < length && i < size; i++) data[i] = edidVec[i];` run for
at most `fuel` iterations from the given `i` and `data`; the result is the final
`i` and `data`.  `data` maps an index of the caller's buffer to the byte there. -/
def EDID.copyLoop (edidVec : List Nat) (length size : Nat) :
    Nat → Nat → (Nat → Nat) → Nat × (Nat → Nat)
  | 0, i, data => (i, data)
  | fuel + 1, i, data =>
    if i < length ∧ i < size then
      EDID.copyLoop edidVec length size fuel (i + 1)
        (fun j => if j = i then edidVec.getD i 0 else data j)
    else
      (i, data)

/-- `uint32_t EDID (uint16_t& length, uint8_t data[]) const`: the status, the value
of `length` when the call returns, and the buffer.  The copy loop runs at most
`size` times, so `size` iterations of fuel let it run to its exit. -/
def EDID (host : Host) (length : Nat) (data : Nat → Nat) : ErrorCode × Nat × (Nat → Nat) :=
  let padded := EDID.pad (EDID.fetch host)
  let r := EDID.copyLoop padded.1 length padded.2 padded.2 0 data
  (ErrorCode.ERROR_NONE, r.1, r.2)

/-! ## HDR capabilities -/

/-- `Core::Service<HdrteratorImplementation>::Create<IHDRIterator>(hdrCapabilities)`:
framework code outside the translated file.  Whether it yields an object is the
parameter `created`; the result is the list the iterator runs over, or `none`
for `nullptr`. -/
def Create (created : Bool) (hdrCapabilities : List HDRType) : Option (List HDRType) :=
  if created then some hdrCapabilities else none

/-- `uint32_t TVCapabilities(IHDRIterator*& type) const`: the status, the value of
`type` when the call returns, and the local list `hdrCapabilities` that the six
tests built and `Create` was given. -/
def TVCapabilities (ds : DsHDRStandard) (host : Host) (created : Bool) :
    ErrorCode × Option (List HDRType) × List HDRType :=
  let query : Option Int :=
    match host.getVideoOutputPort "HDMI0" with
    | none => none
    | some vPort =>
      match vPort.isDisplayConnected with
      | none => none
      | some false => none
      | some true => vPort.getTVHDRCapabilities
  let hdrCapabilities := hdrCapabilitiesOf ds (capabilitiesAfterQuery ds query)
  let iterator := Create created hdrCapabilities
  (if iterator ≠ none then ErrorCode.ERROR_NONE else ErrorCode.ERROR_GENERAL,
    iterator, hdrCapabilities)

/-- `uint32_t STBCapabilities(IHDRIterator*& type) const`: the status, the value of
`type` when the call returns, and the local list `hdrCapabilities` that the six
tests built and `Create` was given. -/
def STBCapabilities (ds : DsHDRStandard) (host : Host) (created : Bool) :
    ErrorCode × Option (List HDRType) × List HDRType :=
  let hdrCapabilities :=
    hdrCapabilitiesOf ds (capabilitiesAfterQuery ds host.getHDRCapabilities)
  let iterator := Create created hdrCapabilities
  (if iterator ≠ none then ErrorCode.ERROR_NONE else ErrorCode.ERROR_GENERAL,
    iterator, hdrCapabilities)

/-! ## Frame rate -/

/-- The `if`/`else if` chain of `UpdateFrameRate` on the frame rate `fr` that the
device reported: the status and the value of `rate` afterwards. -/
def UpdateFrameRate.chain (fr : FrameRate) (rate : Nat) : ErrorCode × Nat :=
  if fr = FrameRate.k24 then (ErrorCode.ERROR_NONE, 24)
  else if fr = FrameRate.k25 then (ErrorCode.ERROR_NONE, 25)
  else if fr = FrameRate.k30 then (ErrorCode.ERROR_NONE, 30)
  else if fr = FrameRate.k60 then (ErrorCode.ERROR_NONE, 60)
  else if fr = FrameRate.k23dot98 then (ErrorCode.ERROR_NONE, 23)
  else if fr = FrameRate.k29dot97 then (ErrorCode.ERROR_NONE, 29)
  else if fr = FrameRate.k50 then (ErrorCode.ERROR_NONE, 50)
  else if fr = FrameRate.k59dot94 then (ErrorCode.ERROR_NONE, 59)
  else (ErrorCode.ERROR_GENERAL, rate)

/-- `uint32_t UpdateFrameRate(uint32_t &rate)`: the status and the value of `rate`
when the call returns. -/
def UpdateFrameRate (host : Host) (rate : Nat) : ErrorCode × Nat :=
  match host.getVideoOutputPort "HDMI0" with
  | none => (ErrorCode.ERROR_GENERAL, rate)
  | some vPort =>
    match vPort.getResolution with
    | none => (ErrorCode.ERROR_GENERAL, rate)
    | some resolution => UpdateFrameRate.chain resolution.getFrameRate rate

/-! ## Instance state, observer registry and the event bridge -/

/-- Modelled from the spec: `IConnectionProperties::INotification::Source` is
declared by the interface header, outside the translated file; the spec speaks of
"a source tag discriminating pre/post". -/
inductive Source where
  | PRE_RESOLUTION_CHANGE
  | POST_RESOLUTION_CHANGE
  deriving DecidableEq, Repr

/-- Modelled from the spec: `IARM_EventId_t` and the two event ids are declared by
the bus headers, outside the translated file; the spec speaks of "two named event
kinds".  Every other id is `other`. -/
inductive IARM_EventId_t where
  | IARM_BUS_DSMGR_EVENT_RES_PRECHANGE
  | IARM_BUS_DSMGR_EVENT_RES_POSTCHANGE
  | other (id : Nat)
  deriving DecidableEq, Repr

/-- Modelled from the spec: `IARM_BUS_DSMGR_NAME` is declared by the bus headers,
outside the translated file; the spec speaks of "a fixed subsystem identifier". -/
def IARM_BUS_DSMGR_NAME : String := "DSMgr"

/-- A call the implementation makes on an observer, which is identified by the
address of its `INotification`. -/
inductive ObserverCall where
  | AddRef (observer : Nat)
  | Release (observer : Nat)
  | Updated (observer : Nat) (source : Source)
  deriving DecidableEq, Repr

/-- The data members of `DisplayInfoImplementation` (the lock apart). -/
structure DisplayInfoImplementation where
  _observers : List Nat
  _totalGpuRam : Nat
  _frameRate : Nat
  deriving DecidableEq, Repr

/-- The constructor: `_totalGpuRam(0)`, `_frameRate(0)` and, when the
initialisation calls before it did not throw, `UpdateFrameRate(_frameRate)`. -/
def DisplayInfoImplementation.construct (host : Host) (initialized : Bool) :
    DisplayInfoImplementation :=
  { _observers := []
    _totalGpuRam := 0
    _frameRate := if initialized then (UpdateFrameRate host 0).2 else 0 }

/-- `uint32_t VerticalFreq(uint32_t& value) const`. -/
def VerticalFreq (self : DisplayInfoImplementation) : ErrorCode × Nat :=
  (ErrorCode.ERROR_NONE, self._frameRate)

/-- Modelled from the spec: the `ASSERT` macro is defined by the framework,
outside the translated file.  The spec calls a failed check an "assertion-level
invariant violation, not a recoverable error" that "must crash loudly in debug
builds" and is left to "the caller's own discipline" in release builds.  `debug`
says whether assertions are compiled in; `none` is the abort on a failed one. -/
def ASSERT (debug : Bool) (cond : Bool) : Option Unit :=
  if debug ∧ cond = false then none else some ()

/-- `uint32_t Register(INotification* notification)`: `none` when the call aborts,
otherwise the status, the instance afterwards and the calls made on observers. -/
def Register (debug : Bool) (self : DisplayInfoImplementation) (notification : Nat) :
    Option (ErrorCode × DisplayInfoImplementation × List ObserverCall) :=
  match ASSERT debug (decide (notification ∉ self._observers)) with
  | none => none
  | some _ =>
    some (ErrorCode.ERROR_NONE,
      { self with _observers := self._observers ++ [notification] },
      [ObserverCall.AddRef notification])

/-- `uint32_t Unregister(INotification* notification)`: `none` when the call
aborts, otherwise the status, the instance afterwards and the calls made on
observers.  `erase` removes the first occurrence, the one `std::find` returns. -/
def Unregister (debug : Bool) (self : DisplayInfoImplementation) (notification : Nat) :
    Option (ErrorCode × DisplayInfoImplementation × List ObserverCall) :=
  match ASSERT debug (decide (notification ∈ self._observers)) with
  | none => none
  | some _ =>
    if notification ∈ self._observers then
      some (ErrorCode.ERROR_NONE,
        { self with _observers := self._observers.erase notification },
        [ObserverCall.Release notification])
    else
      some (ErrorCode.ERROR_NONE, self, [])

/-- The `while` loop of `ResolutionChangeImpl` over the observers from `index` on:
the calls it makes, in order. -/
def ResolutionChangeImpl.loop : List Nat → List ObserverCall
  | [] => []
  | index :: rest =>
    ObserverCall.Updated index Source.POST_RESOLUTION_CHANGE :: ResolutionChangeImpl.loop rest

/-- `void ResolutionChangeImpl(Source eventtype)`: the instance afterwards and the
calls made on observers. -/
def ResolutionChangeImpl (host : Host) (self : DisplayInfoImplementation) (eventtype : Source) :
    DisplayInfoImplementation × List ObserverCall :=
  let updated :=
    if eventtype = Source.POST_RESOLUTION_CHANGE then
      { self with _frameRate := (UpdateFrameRate host self._frameRate).2 }
    else
      self
  (updated, ResolutionChangeImpl.loop self._observers)

/-- `static void ResolutionChange(owner, eventId, data, len)`.  The local
`eventtype` is not initialised; `eventtype` is the value it happens to hold.
The first argument is `DisplayInfoImplementation::_instance`. -/
def ResolutionChange (_instance : Option DisplayInfoImplementation) (host : Host)
    (owner : String) (eventId : IARM_EventId_t) (eventtype : Source) :
    Option DisplayInfoImplementation × List ObserverCall :=
  let eventtype :=
    if owner = IARM_BUS_DSMGR_NAME then
      match eventId with
      | IARM_EventId_t.IARM_BUS_DSMGR_EVENT_RES_POSTCHANGE => Source.POST_RESOLUTION_CHANGE
      | IARM_EventId_t.IARM_BUS_DSMGR_EVENT_RES_PRECHANGE => Source.PRE_RESOLUTION_CHANGE
      | IARM_EventId_t.other _ => eventtype
    else
      eventtype
  match _instance with
  | some self =>
    let r := ResolutionChangeImpl host self eventtype
    (some r.1, r.2)
  | none => (none, [])

/-- States of the instance that calls can lead to: the constructed instance, then
any `Register` or `Unregister` that returns and any bus event, each against
whatever the device layer answers at that moment. -/
inductive Reachable (debug : Bool) : DisplayInfoImplementation → Prop where
  | construct (host : Host) (initialized : Bool) :
      Reachable debug (DisplayInfoImplementation.construct host initialized)
  | register {self next : DisplayInfoImplementation} (notification : Nat) (status : ErrorCode)
      (calls : List ObserverCall) :
      Reachable debug self → Register debug self notification = some (status, next, calls) →
      Reachable debug next
  | unregister {self next : DisplayInfoImplementation} (notification : Nat) (status : ErrorCode)
      (calls : List ObserverCall) :
      Reachable debug self → Unregister debug self notification = some (status, next, calls) →
      Reachable debug next
  | event {self : DisplayInfoImplementation} (host : Host) (eventtype : Source) :
      Reachable debug self → Reachable debug (ResolutionChangeImpl host self eventtype).1

/-! ## Device answers used as concrete inputs -/

/-- A port named `HDMI0` whose display is connected and answers with the given
EDID bytes, HDR capability mask and frame rate. -/
def hdmi0 (edid : List Nat) (capabilities : Int) (fr : FrameRate) : VideoOutputPort :=
  { getName := "HDMI0"
    isDisplayConnected := some true
    getEDIDBytes := some edid
    getTVHDRCapabilities := some capabilities
    GetHdmiPreference := some dsHdcpProtocolVersion_t.dsHDCP_VERSION_MAX
    getResolution := some { getFrameRate := fr } }

/-- A port named `HDMI0` with no display connected, whose HDCP preference would be
the given version if it were asked. -/
def hdmi0Disconnected (hdcpversion : dsHdcpProtocolVersion_t) : VideoOutputPort :=
  { getName := "HDMI0"
    isDisplayConnected := some false
    getEDIDBytes := none
    getTVHDRCapabilities := none
    GetHdmiPreference := some hdcpversion
    getResolution := none }

/-- A host with the single port `vPort` whose video device answers with the given
HDR capability mask. -/
def hostWith (vPort : VideoOutputPort) (capabilities : Int) : Host :=
  { getVideoOutputPorts := some [vPort]
    getVideoOutputPort := fun name => if name = vPort.getName then some vPort else none
    getHDRCapabilities := some capabilities }

/-! ## Vocabulary of the properties -/

/-- The capability mask has none of the five bits the decoder tests. -/
def noRecognizedBit (ds : DsHDRStandard) (capabilities : Int) : Prop :=
  Int.land capabilities ds.dsHDRSTANDARD_HDR10 = 0 ∧
  Int.land capabilities ds.dsHDRSTANDARD_HLG = 0 ∧
  Int.land capabilities ds.dsHDRSTANDARD_DolbyVision = 0 ∧
  Int.land capabilities ds.dsHDRSTANDARD_TechnicolorPrime = 0 ∧
  Int.land capabilities ds.dsHDRSTANDARD_Invalid = 0

instance (ds : DsHDRStandard) (capabilities : Int) : Decidable (noRecognizedBit ds capabilities) := by
  unfold noRecognizedBit
  infer_instance

/-- No video output port reports a connected display (the enumeration itself may
also have failed). -/
def noPortConnected (host : Host) : Prop :=
  ∀ vPorts, host.getVideoOutputPorts = some vPorts →
    ∀ vPort ∈ vPorts, vPort.isDisplayConnected ≠ some true

/-- The frame-rate table as the spec words it: 24→24, 25→25, 30→30, 60→60,
23.98→23, 29.97→29, 50→50, 59.94→59, and no entry for any other value. -/
def specFrameRateTable : FrameRate → Option Nat
  | FrameRate.k24 => some 24
  | FrameRate.k25 => some 25
  | FrameRate.k30 => some 30
  | FrameRate.k60 => some 60
  | FrameRate.k23dot98 => some 23
  | FrameRate.k29dot97 => some 29
  | FrameRate.k50 => some 50
  | FrameRate.k59dot94 => some 59
  | FrameRate.other _ => none

/-- What the live query of `UpdateFrameRate` answers: the frame rate of the
resolution of `HDMI0`, or `none` when one of the device calls throws. -/
def queryFrameRate (host : Host) : Option FrameRate :=
  match host.getVideoOutputPort "HDMI0" with
  | none => none
  | some vPort =>
    match vPort.getResolution with
    | none => none
    | some resolution => some resolution.getFrameRate

/-- One call on the observer registry. -/
inductive RegistryCall where
  | Register (notification : Nat)
  | Unregister (notification : Nat)
  deriving DecidableEq, Repr

/-- A sequence of `Register` and `Unregister` calls made one after the other on an
instance: the instance after the last call, or `none` when a call aborts. -/
def runCalls (debug : Bool) :
    DisplayInfoImplementation → List RegistryCall → Option DisplayInfoImplementation
  | self, [] => some self
  | self, RegistryCall.Register notification :: rest =>
    match Register debug self notification with
    | none => none
    | some r => runCalls debug r.2.1 rest
  | self, RegistryCall.Unregister notification :: rest =>
    match Unregister debug self notification with
    | none => none
    | some r => runCalls debug r.2.1 rest

/-- The observers currently registered, in registration order, as the spec words
it: a `Register` puts the observer behind those registered before it, an
`Unregister` takes the observer out. -/
def registeredAfter : List Nat → List RegistryCall → List Nat
  | current, [] => current
  | current, RegistryCall.Register notification :: rest =>
    registeredAfter (current ++ [notification]) rest
  | current, RegistryCall.Unregister notification :: rest =>
    registeredAfter (current.filter (fun o => o ≠ notification)) rest

/-- The calls are on distinct observers: every `Register` names an observer that is
not registered at that moment and every `Unregister` one that is. -/
def distinctObservers : List Nat → List RegistryCall → Prop
  | _, [] => True
  | current, RegistryCall.Register notification :: rest =>
    notification ∉ current ∧ distinctObservers (current ++ [notification]) rest
  | current, RegistryCall.Unregister notification :: rest =>
    notification ∈ current ∧
      distinctObservers (current.filter (fun o => o ≠ notification)) rest

/-- The observer on which a call is an `Updated` callback, if it is one. -/
def updatedObserver : ObserverCall → Option Nat
  | ObserverCall.Updated observer _ => some observer
  | ObserverCall.AddRef _ => none
  | ObserverCall.Release _ => none

/-- A port named `HDMI0` whose display is connected and whose HDCP preference is
the given version. -/
def hdmi0WithPreference (hdcpversion : dsHdcpProtocolVersion_t) : VideoOutputPort :=
  { getName := "HDMI0"
    isDisplayConnected := some true
    getEDIDBytes := some []
    getTVHDRCapabilities := some 0
    GetHdmiPreference := some hdcpversion
    getResolution := some { getFrameRate := FrameRate.k60 } }

/-! # Theorems -/

/-! ## Properties of the HDR capability decoding -/

theorem mem_pushIf (cond : Bool) (tag x : HDRType) (l : List HDRType) :
    x ∈ pushIf cond tag l ↔ x ∈ l ∨ (cond = true ∧ x = tag) := by
  unfold pushIf
  cases cond <;> simp

theorem off_mem_hdrCapabilitiesOf (ds : DsHDRStandard) (capabilities : Int) :
    HDRType.HDR_OFF ∈ hdrCapabilitiesOf ds capabilities ↔
      (capabilities = 0 ∨ Int.land capabilities ds.dsHDRSTANDARD_Invalid ≠ 0) := by
  simp [hdrCapabilitiesOf, mem_pushIf]

/-- A nonzero mask with none of the five tested bits decodes to the empty list,
whatever the values of the enumerators. -/
theorem hdrCapabilitiesOf_of_unrecognized (ds : DsHDRStandard) (capabilities : Int)
    (hne : capabilities ≠ 0) (h : noRecognizedBit ds capabilities) :
    hdrCapabilitiesOf ds capabilities = [] := by
  obtain ⟨h1, h2, h3, h4, h5⟩ := h
  simp [hdrCapabilitiesOf, pushIf, hne, h1, h2, h3, h4, h5]

/-- The status and `type` follow `Create`: success with the iterator over the list
when it yields an object, `ERROR_GENERAL` with `nullptr` when it does not. -/
theorem Create_status (created : Bool) (hdrCapabilities : List HDRType) :
    ((if Create created hdrCapabilities ≠ none then ErrorCode.ERROR_NONE
        else ErrorCode.ERROR_GENERAL), Create created hdrCapabilities) =
      (if created then (ErrorCode.ERROR_NONE, some hdrCapabilities)
        else (ErrorCode.ERROR_GENERAL, none)) := by
  cases created <;> simp [Create]

theorem TVCapabilities_connected (ds : DsHDRStandard) (host : Host) (vPort : VideoOutputPort)
    (capabilities : Int) (created : Bool)
    (hport : host.getVideoOutputPort "HDMI0" = some vPort)
    (hconn : vPort.isDisplayConnected = some true)
    (htv : vPort.getTVHDRCapabilities = some capabilities) :
    TVCapabilities ds host created =
      (if created then ErrorCode.ERROR_NONE else ErrorCode.ERROR_GENERAL,
        Create created (hdrCapabilitiesOf ds capabilities),
        hdrCapabilitiesOf ds capabilities) := by
  cases created <;> simp [TVCapabilities, Create, hport, hconn, htv, capabilitiesAfterQuery]

theorem STBCapabilities_answered (ds : DsHDRStandard) (host : Host) (capabilities : Int)
    (created : Bool)
    (hstb : host.getHDRCapabilities = some capabilities) :
    STBCapabilities ds host created =
      (if created then ErrorCode.ERROR_NONE else ErrorCode.ERROR_GENERAL,
        Create created (hdrCapabilitiesOf ds capabilities),
        hdrCapabilitiesOf ds capabilities) := by
  cases created <;> simp [STBCapabilities, Create, hstb, capabilitiesAfterQuery]

/-- C1, as stated, fails: for the mask `0x10`, whose only set bit is one the
decoder does not test, no recognized bit is set, yet the lists that
`TVCapabilities` and `STBCapabilities` build are empty and so hold no `HDR_OFF`. -/
theorem C1_off_iff_no_recognized_bit_fails :
    noRecognizedBit dsTypes 16 ∧
    (TVCapabilities dsTypes (hostWith (hdmi0 [] 16 FrameRate.k60) 16) true).2.2 = [] ∧
    (STBCapabilities dsTypes (hostWith (hdmi0 [] 16 FrameRate.k60) 16) true).2.2 = [] ∧
    TVCapabilities dsTypes (hostWith (hdmi0 [] 16 FrameRate.k60) 16) true
      = (ErrorCode.ERROR_NONE, some [], []) ∧
    STBCapabilities dsTypes (hostWith (hdmi0 [] 16 FrameRate.k60) 16) true
      = (ErrorCode.ERROR_NONE, some [], []) ∧
    ¬ (HDRType.HDR_OFF ∈ (TVCapabilities dsTypes (hostWith (hdmi0 [] 16 FrameRate.k60) 16) true).2.2 ↔
        (noRecognizedBit dsTypes 16 ∨ Int.land 16 dsTypes.dsHDRSTANDARD_Invalid ≠ 0)) ∧
    ¬ (HDRType.HDR_OFF ∈ (STBCapabilities dsTypes (hostWith (hdmi0 [] 16 FrameRate.k60) 16) true).2.2 ↔
        (noRecognizedBit dsTypes 16 ∨ Int.land 16 dsTypes.dsHDRSTANDARD_Invalid ≠ 0)) := by
  decide

/-- C1, amended: for every value of the five tested enumerators and every mask the
device layer reports, the list built by `TVCapabilities` and the list built by
`STBCapabilities` contain `HDR_OFF` if and only if the mask is zero or has the
invalid bit set. -/
theorem C1_off_iff_zero_or_invalid (ds : DsHDRStandard) (host : Host) (vPort : VideoOutputPort)
    (capabilities : Int) (created : Bool)
    (hport : host.getVideoOutputPort "HDMI0" = some vPort)
    (hconn : vPort.isDisplayConnected = some true)
    (htv : vPort.getTVHDRCapabilities = some capabilities)
    (hstb : host.getHDRCapabilities = some capabilities) :
    (HDRType.HDR_OFF ∈ (TVCapabilities ds host created).2.2 ↔
      (capabilities = 0 ∨ Int.land capabilities ds.dsHDRSTANDARD_Invalid ≠ 0)) ∧
    (HDRType.HDR_OFF ∈ (STBCapabilities ds host created).2.2 ↔
      (capabilities = 0 ∨ Int.land capabilities ds.dsHDRSTANDARD_Invalid ≠ 0)) := by
  rw [TVCapabilities_connected ds host vPort capabilities created hport hconn htv,
    STBCapabilities_answered ds host capabilities created hstb]
  exact ⟨off_mem_hdrCapabilitiesOf ds capabilities, off_mem_hdrCapabilitiesOf ds capabilities⟩

/-- C1, amended, at the mask `HDR10 | invalid` reported for a connected display. -/
theorem C1_off_iff_zero_or_invalid_witness :
    (HDRType.HDR_OFF ∈ (TVCapabilities dsTypes (hostWith (hdmi0 [] 129 FrameRate.k60) 129) true).2.2 ↔
      ((129 : Int) = 0 ∨ Int.land 129 dsTypes.dsHDRSTANDARD_Invalid ≠ 0)) ∧
    (HDRType.HDR_OFF ∈ (STBCapabilities dsTypes (hostWith (hdmi0 [] 129 FrameRate.k60) 129) true).2.2 ↔
      ((129 : Int) = 0 ∨ Int.land 129 dsTypes.dsHDRSTANDARD_Invalid ≠ 0)) :=
  C1_off_iff_zero_or_invalid dsTypes (hostWith (hdmi0 [] 129 FrameRate.k60) 129)
    (hdmi0 [] 129 FrameRate.k60) 129 true rfl rfl rfl rfl

/-! ## Properties of the EDID padding and copy -/

theorem EDID.padLoop_eq (size : Nat) (edidVec : List Nat) :
    EDID.padLoop size 3 0 edidVec =
      (3 - size % 3, edidVec ++ List.replicate (3 - size % 3) 0) := by
  have h : size % 3 = 0 ∨ size % 3 = 1 ∨ size % 3 = 2 := by omega
  rcases h with h | h | h <;> simp [EDID.padLoop, h, List.replicate]

theorem EDID.pad_eq (edidVec : List Nat) :
    EDID.pad edidVec =
      (edidVec ++ List.replicate (3 - min edidVec.length 65535 % 3) 0,
        (min edidVec.length 65535 + (3 - min edidVec.length 65535 % 3)) % 65536) := by
  simp [EDID.pad, EDID.padLoop_eq]

/-- The copy loop leaves through its condition, never through the fuel: started
at `i` with at least `min length size - i` iterations available it returns
`i = min length size` and has stored `edidVec[j]` at every `j` it passed. -/
theorem EDID.copyLoop_spec (edidVec : List Nat) (length size : Nat) :
    ∀ (fuel i : Nat) (data : Nat → Nat), i ≤ min length size → min length size ≤ i + fuel →
      EDID.copyLoop edidVec length size fuel i data =
        (min length size,
          fun j => if i ≤ j ∧ j < min length size then edidVec.getD j 0 else data j) := by
  intro fuel
  induction fuel with
  | zero =>
    intro i data h1 h2
    have hi : i = min length size := by omega
    simp only [EDID.copyLoop]
    refine Prod.ext hi ?_
    funext j
    have hn : ¬ (i ≤ j ∧ j < min length size) := by omega
    show data j = if i ≤ j ∧ j < min length size then edidVec.getD j 0 else data j
    rw [if_neg hn]
  | succ fuel ih =>
    intro i data h1 h2
    by_cases hc : i < length ∧ i < size
    · have hlt : i < min length size := by
        rcases hc with ⟨ha, hb⟩
        exact lt_min ha hb
      rw [EDID.copyLoop, if_pos hc, ih (i + 1) _ (by omega) (by omega)]
      refine Prod.ext rfl ?_
      funext j
      show (if i + 1 ≤ j ∧ j < min length size then edidVec.getD j 0
          else if j = i then edidVec.getD i 0 else data j) =
        if i ≤ j ∧ j < min length size then edidVec.getD j 0 else data j
      by_cases hj : j = i
      · subst hj
        have h3 : ¬ (j + 1 ≤ j ∧ j < min length size) := by omega
        have h4 : j ≤ j ∧ j < min length size := ⟨le_refl j, hlt⟩
        rw [if_neg h3, if_pos h4, if_pos rfl]
      · by_cases h5 : i + 1 ≤ j ∧ j < min length size
        · have h6 : i ≤ j ∧ j < min length size := by omega
          rw [if_pos h5, if_pos h6]
        · have h6 : ¬ (i ≤ j ∧ j < min length size) := by omega
          rw [if_neg h5, if_neg h6, if_neg hj]
    · have hi : i = min length size := by
        have hnlt : ¬ i < min length size := by
          intro h
          exact hc ⟨lt_of_lt_of_le h (min_le_left _ _), lt_of_lt_of_le h (min_le_right _ _)⟩
        omega
      rw [EDID.copyLoop, if_neg hc]
      refine Prod.ext hi ?_
      funext j
      have hn : ¬ (i ≤ j ∧ j < min length size) := by omega
      show data j = if i ≤ j ∧ j < min length size then edidVec.getD j 0 else data j
      rw [if_neg hn]

/-- What `EDID` returns, in closed form: the count is `min length size` for the
16-bit `size`, the first that many bytes of the padded vector are stored, and no
other index of the buffer is touched. -/
theorem EDID_eq (host : Host) (length : Nat) (data : Nat → Nat) :
    EDID host length data =
      (ErrorCode.ERROR_NONE, min length (EDID.pad (EDID.fetch host)).2,
        fun j => if j < min length (EDID.pad (EDID.fetch host)).2
          then (EDID.pad (EDID.fetch host)).1.getD j 0 else data j) := by
  unfold EDID
  simp only []
  rw [EDID.copyLoop_spec _ _ _ _ 0 data (Nat.zero_le _) (by
    have := min_le_right length (EDID.pad (EDID.fetch host)).2
    omega)]
  simp

theorem EDID.fetch_connected (host : Host) (vPort : VideoOutputPort) (edid : List Nat)
    (hport : host.getVideoOutputPort "HDMI0" = some vPort)
    (hconn : vPort.isDisplayConnected = some true)
    (hedid : vPort.getEDIDBytes = some edid) :
    EDID.fetch host = edid := by
  simp [EDID.fetch, hport, hconn, hedid]

/-- Below 65535 bytes the 16-bit `size` is the length of the padded vector, so the
copy is bounded by the payload and the capacity alone. -/
theorem EDID_copy_of_lt (host : Host) (length : Nat) (data : Nat → Nat)
    (hlen : (EDID.fetch host).length < 65535) :
    EDID host length data =
      (ErrorCode.ERROR_NONE, min (EDID.pad (EDID.fetch host)).1.length length,
        fun j => if j < min (EDID.pad (EDID.fetch host)).1.length length
          then (EDID.pad (EDID.fetch host)).1.getD j 0 else data j) := by
  have hsize : (EDID.pad (EDID.fetch host)).2 = (EDID.pad (EDID.fetch host)).1.length := by
    rw [EDID.pad_eq]
    simp only [List.length_append, List.length_replicate]
    rw [min_eq_left (by omega)]
    omega
  rw [EDID_eq, hsize, min_comm]

theorem EDID.pad_length (edidVec : List Nat) :
    (EDID.pad edidVec).1.length = edidVec.length + (3 - min edidVec.length 65535 % 3) := by
  rw [EDID.pad_eq]
  simp only [List.length_append, List.length_replicate]

/-- From 65535 bytes on the 16-bit size wraps around to 2. -/
theorem EDID.pad_size_wrap (edidVec : List Nat) (hlen : 65535 ≤ edidVec.length) :
    (EDID.pad edidVec).2 = 2 := by
  rw [EDID.pad_eq]
  show (min edidVec.length 65535 + (3 - min edidVec.length 65535 % 3)) % 65536 = 2
  rw [min_eq_right hlen]

/-- An aligned payload shorter than 65535 bytes always gets three zero bytes. -/
theorem EDID.pad_of_aligned (edidVec : List Nat) (h3 : edidVec.length % 3 = 0)
    (hlen : edidVec.length < 65535) :
    EDID.pad edidVec = (edidVec ++ [0, 0, 0], edidVec.length + 3) := by
  rw [EDID.pad_eq, min_eq_left (by omega), h3]
  refine Prod.ext rfl ?_
  show (edidVec.length + (3 - 0)) % 65536 = edidVec.length + 3
  omega

/-- C2: on the three-byte payload `[1, 2, 3]` of a connected display the padding
step of `EDID` appends three zero bytes: the padded payload is
`[1, 2, 3, 0, 0, 0]`, the size is 6, and a caller with a 16-byte buffer receives
`length = 6` with zeros at the indices 3, 4 and 5, while index 6 keeps its old
content. -/
theorem C2_aligned_payload_is_padded :
    [1, 2, 3].length % 3 = 0 ∧
    EDID.fetch (hostWith (hdmi0 [1, 2, 3] 0 FrameRate.k60) 0) = [1, 2, 3] ∧
    EDID.pad [1, 2, 3] = ([1, 2, 3, 0, 0, 0], 6) ∧
    (EDID (hostWith (hdmi0 [1, 2, 3] 0 FrameRate.k60) 0) 16 (fun _ => 255)).1 =
      ErrorCode.ERROR_NONE ∧
    (EDID (hostWith (hdmi0 [1, 2, 3] 0 FrameRate.k60) 0) 16 (fun _ => 255)).2.1 = 6 ∧
    (List.range 7).map (EDID (hostWith (hdmi0 [1, 2, 3] 0 FrameRate.k60) 0) 16 (fun _ => 255)).2.2
      = [1, 2, 3, 0, 0, 0, 255] := by
  decide

/-- C3, as stated, fails at 65535 bytes and beyond: for a payload of 65535 zero
bytes the 16-bit size wraps to 2, which is not a multiple of 3, and for a payload
of 65536 zero bytes the padded vector has 65539 bytes, not a multiple of 3. -/
theorem C3_padding_multiple_of_three_fails :
    (EDID.pad (List.replicate 65535 0)).2 = 2 ∧
    (EDID.pad (List.replicate 65536 0)).1.length = 65539 ∧
    ¬ ((List.replicate 65535 0 <+: (EDID.pad (List.replicate 65535 0)).1) ∧
        (∀ b ∈ (EDID.pad (List.replicate 65535 0)).1.drop (List.replicate 65535 0).length, b = 0) ∧
        (EDID.pad (List.replicate 65535 0)).1.length % 3 = 0 ∧
        (EDID.pad (List.replicate 65535 0)).2 % 3 = 0) ∧
    ¬ ((EDID.pad (List.replicate 65536 0)).1.length % 3 = 0) := by
  have h1 : (EDID.pad (List.replicate 65535 0)).2 = 2 :=
    EDID.pad_size_wrap _ (by rw [List.length_replicate])
  have h2 : (EDID.pad (List.replicate 65536 0)).1.length = 65539 := by
    rw [EDID.pad_length, List.length_replicate]
    decide
  refine ⟨h1, h2, ?_, ?_⟩
  · rintro ⟨_, _, _, h⟩
    rw [h1] at h
    exact absurd h (by decide)
  · rw [h2]
    decide

/-- C3, amended: for every payload `S` the padded vector starts with `S` and every
appended byte is zero; when `S` has at most 65535 bytes the padded length is a
multiple of 3; when `S` has fewer than 65535 bytes the 16-bit size equals the
padded length and is a multiple of 3; the 7-byte default `unknown` becomes 9
bytes. -/
theorem C3_padding_below_uint16_max (S : List Nat) :
    (S <+: (EDID.pad S).1) ∧
    (∀ b ∈ (EDID.pad S).1.drop S.length, b = 0) ∧
    (S.length ≤ 65535 → (EDID.pad S).1.length % 3 = 0) ∧
    (S.length < 65535 →
      (EDID.pad S).2 = (EDID.pad S).1.length ∧ (EDID.pad S).2 % 3 = 0) ∧
    EDID.pad unknown = (unknown ++ [0, 0], 9) := by
  rw [EDID.pad_eq]
  refine ⟨List.prefix_append _ _, ?_, ?_, ?_, by decide⟩
  · intro b hb
    simp only [List.drop_left] at hb
    exact List.eq_of_mem_replicate hb
  · intro h
    simp only [List.length_append, List.length_replicate]
    rw [min_eq_left h]
    omega
  · intro h
    simp only [List.length_append, List.length_replicate]
    rw [min_eq_left (by omega)]
    have hmod : (S.length + (3 - S.length % 3)) % 65536 = S.length + (3 - S.length % 3) := by
      omega
    rw [hmod]
    exact ⟨rfl, by omega⟩

/-- C3, amended, at the default payload `unknown`: 7 bytes become 9, and both the
padded length and the size are multiples of 3. -/
theorem C3_padding_below_uint16_max_witness :
    unknown.length = 7 ∧ (EDID.pad unknown).1.length = 9 ∧
    (EDID.pad unknown).1.length % 3 = 0 ∧
    ((EDID.pad unknown).2 = (EDID.pad unknown).1.length ∧ (EDID.pad unknown).2 % 3 = 0) :=
  ⟨by decide, by decide,
    (C3_padding_below_uint16_max unknown).2.2.1 (by decide),
    (C3_padding_below_uint16_max unknown).2.2.2.1 (by decide)⟩

/-- C4: for a connected display whose EDID has 65535 bytes and a caller capacity
of 100, the padded vector has 65538 bytes, so `min(len(P), C)` is 100, but the
copy loop, bounded by the wrapped 16-bit size 2, stores two bytes only, sets
`length` to 2 and leaves index 2 of the buffer as it was. -/
theorem C4_copy_count_after_size_wrap :
    (EDID.pad (EDID.fetch (hostWith (hdmi0 (List.replicate 65535 7) 0 FrameRate.k60) 0))).1.length
      = 65538 ∧
    min 65538 100 = 100 ∧
    (EDID (hostWith (hdmi0 (List.replicate 65535 7) 0 FrameRate.k60) 0) 100 (fun _ => 255)).2.1
      = 2 ∧
    (EDID (hostWith (hdmi0 (List.replicate 65535 7) 0 FrameRate.k60) 0) 100 (fun _ => 255)).2.2 2
      = 255 := by
  have hf : EDID.fetch (hostWith (hdmi0 (List.replicate 65535 7) 0 FrameRate.k60) 0)
      = List.replicate 65535 7 :=
    EDID.fetch_connected _ (hdmi0 (List.replicate 65535 7) 0 FrameRate.k60) _ rfl rfl rfl
  have hp : (EDID.pad (List.replicate 65535 7)).2 = 2 :=
    EDID.pad_size_wrap _ (by rw [List.length_replicate])
  refine ⟨?_, by decide, ?_, ?_⟩
  · rw [hf, EDID.pad_length, List.length_replicate]
    decide
  · rw [EDID_eq, hf, hp]
    decide
  · rw [EDID_eq, hf, hp]
    show (if 2 < min 100 2 then (EDID.pad (List.replicate 65535 7)).1.getD 2 0 else 255) = 255
    exact if_neg (show ¬ (2 < min 100 2) by decide)

/-! ## Properties of the port selection and the HDCP query -/

theorem PortName.loop_of_none_connected (vPorts : List VideoOutputPort) (name : String)
    (h : ∀ vPort ∈ vPorts, vPort.isDisplayConnected ≠ some true) :
    PortName.loop vPorts name = some name ∨ PortName.loop vPorts name = none := by
  induction vPorts with
  | nil => exact Or.inl rfl
  | cons vPort rest ih =>
    have hhead := h vPort (List.mem_cons_self _ _)
    have htail := ih (fun q hq => h q (List.mem_cons_of_mem _ hq))
    unfold PortName.loop
    cases hc : vPort.isDisplayConnected with
    | none => exact Or.inr rfl
    | some c =>
      cases c with
      | true => exact absurd hc hhead
      | false => exact htail

theorem PortName_of_none_connected (host : Host) (name : String) (h : noPortConnected host) :
    PortName host name = (ErrorCode.ERROR_NONE, name) := by
  unfold PortName
  cases hp : host.getVideoOutputPorts with
  | none => rfl
  | some vPorts =>
    rcases PortName.loop_of_none_connected vPorts name (h vPorts hp) with h1 | h1 <;>
      simp [h1]

/-- With no connected port `HDCPProtection` (get) returns success and leaves the
caller's `value` as it was, whatever the ports would answer to
`GetHdmiPreference`. -/
theorem HDCPProtection_of_none_connected (host : Host) (value : HDCPProtectionType)
    (h : noPortConnected host) :
    HDCPProtection host value = (ErrorCode.ERROR_NONE, value) := by
  unfold HDCPProtection
  simp [PortName_of_none_connected host "" h]

/-- C5: with the single port `HDMI0` reporting no connected display, `PortName`
leaves the name empty and `HDCPProtection` (get) returns success, but its output
is the value the caller passed in (`HDCP_1X` stays `HDCP_1X`, `HDCP_2X` stays
`HDCP_2X`), not a default tier; the port's own preference is never read. -/
theorem C5_no_port_leaves_value_untouched :
    PortName (hostWith (hdmi0Disconnected dsHdcpProtocolVersion_t.dsHDCP_VERSION_MAX) 0) ""
      = (ErrorCode.ERROR_NONE, "") ∧
    HDCPProtection (hostWith (hdmi0Disconnected dsHdcpProtocolVersion_t.dsHDCP_VERSION_MAX) 0)
      HDCPProtectionType.HDCP_1X = (ErrorCode.ERROR_NONE, HDCPProtectionType.HDCP_1X) ∧
    HDCPProtection (hostWith (hdmi0Disconnected dsHdcpProtocolVersion_t.dsHDCP_VERSION_MAX) 0)
      HDCPProtectionType.HDCP_2X = (ErrorCode.ERROR_NONE, HDCPProtectionType.HDCP_2X) ∧
    HDCPProtection (hostWith (hdmi0Disconnected dsHdcpProtocolVersion_t.dsHDCP_VERSION_1X) 0)
      HDCPProtectionType.HDCP_2X = (ErrorCode.ERROR_NONE, HDCPProtectionType.HDCP_2X) := by
  decide

/-! ## Properties of the display size in centimeters -/

/-- C6, as stated, fails: with the caller's byte initially 0, a connected display
whose EDID has 10 bytes and one whose EDID has 23 zero bytes (a reported size of
zero) give the same status and the same byte, for the width and for the height. -/
theorem C6_short_edid_not_distinguishable :
    (List.replicate 10 0).length ≤ 22 ∧ 22 < (List.replicate 23 0).length ∧
    WidthInCentimeters (hostWith (hdmi0 (List.replicate 10 0) 0 FrameRate.k60) 0) 0 =
      WidthInCentimeters (hostWith (hdmi0 (List.replicate 23 0) 0 FrameRate.k60) 0) 0 ∧
    HeightInCentimeters (hostWith (hdmi0 (List.replicate 10 0) 0 FrameRate.k60) 0) 0 =
      HeightInCentimeters (hostWith (hdmi0 (List.replicate 23 0) 0 FrameRate.k60) 0) 0 ∧
    WidthInCentimeters (hostWith (hdmi0 (List.replicate 10 0) 0 FrameRate.k60) 0) 0 =
      (ErrorCode.ERROR_NONE, 0) := by
  decide

/-- C6, amended: for the EDID `E` of a connected display, if `len(E) > 22` then
`WidthInCentimeters` returns success with `E[21]` and `HeightInCentimeters`
success with `E[22]`; if `len(E) <= 22` both return success and leave the
caller's byte as it was. -/
theorem C6_size_in_centimeters (host : Host) (vPort : VideoOutputPort) (E : List Nat)
    (width height : Nat)
    (hport : host.getVideoOutputPort "HDMI0" = some vPort)
    (hconn : vPort.isDisplayConnected = some true)
    (hedid : vPort.getEDIDBytes = some E) :
    (22 < E.length →
      (WidthInCentimeters host width).1 = ErrorCode.ERROR_NONE ∧
      E[21]? = some (WidthInCentimeters host width).2 ∧
      (HeightInCentimeters host height).1 = ErrorCode.ERROR_NONE ∧
      E[22]? = some (HeightInCentimeters host height).2) ∧
    (E.length ≤ 22 →
      WidthInCentimeters host width = (ErrorCode.ERROR_NONE, width) ∧
      HeightInCentimeters host height = (ErrorCode.ERROR_NONE, height)) := by
  constructor
  · intro h
    have h21 : 21 < E.length := by omega
    simp [WidthInCentimeters, HeightInCentimeters, hport, hconn, hedid,
      EDID_MAX_VERTICAL_SIZE, EDID_MAX_HORIZONTAL_SIZE, h, List.getD_eq_getElem?_getD,
      List.getElem?_eq_getElem h, List.getElem?_eq_getElem h21]
  · intro h
    have hn : ¬ 22 < E.length := by omega
    simp [WidthInCentimeters, HeightInCentimeters, hport, hconn, hedid,
      EDID_MAX_VERTICAL_SIZE, hn]

/-- C6, amended, at a 23-byte EDID whose bytes 21 and 22 are 52 and 29, and at a
10-byte EDID with the caller's bytes initially 7 and 9. -/
theorem C6_size_in_centimeters_witness :
    ((WidthInCentimeters (hostWith (hdmi0 (List.replicate 21 0 ++ [52, 29]) 0 FrameRate.k60) 0)
        7).2 = 52 ∧
      (HeightInCentimeters (hostWith (hdmi0 (List.replicate 21 0 ++ [52, 29]) 0 FrameRate.k60) 0)
        9).2 = 29) ∧
    (WidthInCentimeters (hostWith (hdmi0 (List.replicate 10 0) 0 FrameRate.k60) 0) 7
        = (ErrorCode.ERROR_NONE, 7) ∧
      HeightInCentimeters (hostWith (hdmi0 (List.replicate 10 0) 0 FrameRate.k60) 0) 9
        = (ErrorCode.ERROR_NONE, 9)) :=
  ⟨by
      have h := (C6_size_in_centimeters
        (hostWith (hdmi0 (List.replicate 21 0 ++ [52, 29]) 0 FrameRate.k60) 0)
        (hdmi0 (List.replicate 21 0 ++ [52, 29]) 0 FrameRate.k60)
        (List.replicate 21 0 ++ [52, 29]) 7 9 rfl rfl rfl).1 (by decide)
      exact ⟨(Option.some.inj h.2.1).symm, (Option.some.inj h.2.2.2).symm⟩,
    (C6_size_in_centimeters
      (hostWith (hdmi0 (List.replicate 10 0) 0 FrameRate.k60) 0)
      (hdmi0 (List.replicate 10 0) 0 FrameRate.k60)
      (List.replicate 10 0) 7 9 rfl rfl rfl).2 (by decide)⟩

/-! ## Properties of the frame rate and its cache -/

theorem UpdateFrameRate.chain_eq_table (fr : FrameRate) (rate : Nat) :
    UpdateFrameRate.chain fr rate =
      match specFrameRateTable fr with
      | some r => (ErrorCode.ERROR_NONE, r)
      | none => (ErrorCode.ERROR_GENERAL, rate) := by
  cases fr <;> simp [UpdateFrameRate.chain, specFrameRateTable]

theorem UpdateFrameRate_eq_table (host : Host) (rate : Nat) :
    UpdateFrameRate host rate =
      match queryFrameRate host with
      | none => (ErrorCode.ERROR_GENERAL, rate)
      | some fr =>
        match specFrameRateTable fr with
        | some r => (ErrorCode.ERROR_NONE, r)
        | none => (ErrorCode.ERROR_GENERAL, rate) := by
  unfold UpdateFrameRate queryFrameRate
  cases host.getVideoOutputPort "HDMI0" with
  | none => rfl
  | some vPort =>
    cases hres : vPort.getResolution with
    | none => simp [hres]
    | some resolution => simp [hres, UpdateFrameRate.chain_eq_table]

theorem UpdateFrameRate_of_resolution (host : Host) (vPort : VideoOutputPort)
    (resolution : VideoResolution) (rate : Nat)
    (hport : host.getVideoOutputPort "HDMI0" = some vPort)
    (hres : vPort.getResolution = some resolution) :
    UpdateFrameRate host rate = UpdateFrameRate.chain resolution.getFrameRate rate := by
  simp [UpdateFrameRate, hport, hres]

theorem UpdateFrameRate.chain_injective (fr1 fr2 : FrameRate) (rate1 rate2 : Nat)
    (h1 : (UpdateFrameRate.chain fr1 rate1).1 = ErrorCode.ERROR_NONE)
    (h2 : (UpdateFrameRate.chain fr2 rate2).1 = ErrorCode.ERROR_NONE)
    (h : (UpdateFrameRate.chain fr2 rate2).2 = (UpdateFrameRate.chain fr1 rate1).2) :
    fr2 = fr1 := by
  cases fr1 <;> cases fr2 <;> simp [UpdateFrameRate.chain] at h1 h2 h ⊢

/-- C7: when the device reports a resolution, `UpdateFrameRate` returns success
with 24, 25, 30, 60, 23, 29, 50, 59 for the enumerations 24, 25, 30, 60, 23.98,
29.97, 50, 59.94; two successful calls that write the same rate saw the same
enumeration; and for every other enumeration value it returns `ERROR_GENERAL`
and leaves `rate` as it was. -/
theorem C7_frame_rate_table (host : Host) (vPort : VideoOutputPort)
    (resolution : VideoResolution) (rate : Nat)
    (hport : host.getVideoOutputPort "HDMI0" = some vPort)
    (hres : vPort.getResolution = some resolution) :
    (resolution.getFrameRate = FrameRate.k24 →
      UpdateFrameRate host rate = (ErrorCode.ERROR_NONE, 24)) ∧
    (resolution.getFrameRate = FrameRate.k25 →
      UpdateFrameRate host rate = (ErrorCode.ERROR_NONE, 25)) ∧
    (resolution.getFrameRate = FrameRate.k30 →
      UpdateFrameRate host rate = (ErrorCode.ERROR_NONE, 30)) ∧
    (resolution.getFrameRate = FrameRate.k60 →
      UpdateFrameRate host rate = (ErrorCode.ERROR_NONE, 60)) ∧
    (resolution.getFrameRate = FrameRate.k23dot98 →
      UpdateFrameRate host rate = (ErrorCode.ERROR_NONE, 23)) ∧
    (resolution.getFrameRate = FrameRate.k29dot97 →
      UpdateFrameRate host rate = (ErrorCode.ERROR_NONE, 29)) ∧
    (resolution.getFrameRate = FrameRate.k50 →
      UpdateFrameRate host rate = (ErrorCode.ERROR_NONE, 50)) ∧
    (resolution.getFrameRate = FrameRate.k59dot94 →
      UpdateFrameRate host rate = (ErrorCode.ERROR_NONE, 59)) ∧
    (∀ id, resolution.getFrameRate = FrameRate.other id →
      UpdateFrameRate host rate = (ErrorCode.ERROR_GENERAL, rate)) ∧
    (∀ (host2 : Host) (vPort2 : VideoOutputPort) (resolution2 : VideoResolution) (rate2 : Nat),
      host2.getVideoOutputPort "HDMI0" = some vPort2 →
      vPort2.getResolution = some resolution2 →
      (UpdateFrameRate host rate).1 = ErrorCode.ERROR_NONE →
      (UpdateFrameRate host2 rate2).1 = ErrorCode.ERROR_NONE →
      (UpdateFrameRate host2 rate2).2 = (UpdateFrameRate host rate).2 →
      resolution2.getFrameRate = resolution.getFrameRate) := by
  rw [UpdateFrameRate_of_resolution host vPort resolution rate hport hres]
  refine ⟨?_, ?_, ?_, ?_, ?_, ?_, ?_, ?_, ?_, ?_⟩
  · intro h; rw [h]; rfl
  · intro h; rw [h]; rfl
  · intro h; rw [h]; rfl
  · intro h; rw [h]; rfl
  · intro h; rw [h]; rfl
  · intro h; rw [h]; rfl
  · intro h; rw [h]; rfl
  · intro h; rw [h]; rfl
  · intro id h; rw [h]; rfl
  · intro host2 vPort2 resolution2 rate2 hport2 hres2
    rw [UpdateFrameRate_of_resolution host2 vPort2 resolution2 rate2 hport2 hres2]
    intro h1 h2 h
    exact UpdateFrameRate.chain_injective _ _ _ _ h1 h2 h

/-- C7 at a display running at 59.94 Hz, and against one running at 60 Hz. -/
theorem C7_frame_rate_table_witness :
    UpdateFrameRate (hostWith (hdmi0 [] 0 FrameRate.k59dot94) 0) 0 = (ErrorCode.ERROR_NONE, 59) ∧
    UpdateFrameRate (hostWith (hdmi0 [] 0 FrameRate.k60) 0) 0 = (ErrorCode.ERROR_NONE, 60) ∧
    UpdateFrameRate (hostWith (hdmi0 [] 0 (FrameRate.other 120)) 0) 50
      = (ErrorCode.ERROR_GENERAL, 50) :=
  ⟨(C7_frame_rate_table (hostWith (hdmi0 [] 0 FrameRate.k59dot94) 0)
      (hdmi0 [] 0 FrameRate.k59dot94) { getFrameRate := FrameRate.k59dot94 } 0 rfl rfl).2.2.2.2.2.2.2.1
      rfl,
    (C7_frame_rate_table (hostWith (hdmi0 [] 0 FrameRate.k60) 0)
      (hdmi0 [] 0 FrameRate.k60) { getFrameRate := FrameRate.k60 } 0 rfl rfl).2.2.2.1 rfl,
    (C7_frame_rate_table (hostWith (hdmi0 [] 0 (FrameRate.other 120)) 0)
      (hdmi0 [] 0 (FrameRate.other 120)) { getFrameRate := FrameRate.other 120 } 50
      rfl rfl).2.2.2.2.2.2.2.2.1 120 rfl⟩

theorem ASSERT_eq_some (debug cond : Bool) (u : Unit) (h : ASSERT debug cond = some u) :
    debug = true → cond = true := by
  intro hd
  cases cond with
  | true => rfl
  | false =>
    subst hd
    exact absurd h (by simp [ASSERT])

/-- A `Register` that returns has appended the observer, left the rest of the
instance alone and, with assertions compiled in, was given a new observer. -/
theorem Register_eq_some (debug : Bool) (self next : DisplayInfoImplementation)
    (notification : Nat) (status : ErrorCode) (calls : List ObserverCall)
    (h : Register debug self notification = some (status, next, calls)) :
    status = ErrorCode.ERROR_NONE ∧
    next = { self with _observers := self._observers ++ [notification] } ∧
    calls = [ObserverCall.AddRef notification] ∧
    (debug = true → notification ∉ self._observers) := by
  unfold Register at h
  split at h
  · exact absurd h (by simp)
  · rename_i u hA
    simp only [Option.some.injEq, Prod.mk.injEq] at h
    refine ⟨h.1.symm, h.2.1.symm, h.2.2.symm, ?_⟩
    intro hd
    exact of_decide_eq_true (ASSERT_eq_some _ _ u hA hd)

/-- An `Unregister` that returns has erased the first occurrence of the observer
(none when it is absent), left the rest of the instance alone and, with
assertions compiled in, was given a registered observer. -/
theorem Unregister_eq_some (debug : Bool) (self next : DisplayInfoImplementation)
    (notification : Nat) (status : ErrorCode) (calls : List ObserverCall)
    (h : Unregister debug self notification = some (status, next, calls)) :
    status = ErrorCode.ERROR_NONE ∧
    next = { self with _observers := self._observers.erase notification } ∧
    (debug = true → notification ∈ self._observers) := by
  unfold Unregister at h
  split at h
  · exact absurd h (by simp)
  · rename_i u hA
    have hd : debug = true → notification ∈ self._observers := fun hd =>
      of_decide_eq_true (ASSERT_eq_some _ _ u hA hd)
    by_cases hm : notification ∈ self._observers
    · rw [if_pos hm] at h
      simp only [Option.some.injEq, Prod.mk.injEq] at h
      exact ⟨h.1.symm, h.2.1.symm, hd⟩
    · rw [if_neg hm] at h
      simp only [Option.some.injEq, Prod.mk.injEq] at h
      refine ⟨h.1.symm, ?_, hd⟩
      rw [List.erase_of_not_mem hm]
      exact h.2.1.symm

theorem ResolutionChange_post (self : DisplayInfoImplementation) (host : Host)
    (eventtype : Source) :
    ResolutionChange (some self) host IARM_BUS_DSMGR_NAME
        IARM_EventId_t.IARM_BUS_DSMGR_EVENT_RES_POSTCHANGE eventtype =
      (some { self with _frameRate := (UpdateFrameRate host self._frameRate).2 },
        ResolutionChangeImpl.loop self._observers) := by
  simp [ResolutionChange, ResolutionChangeImpl]

theorem ResolutionChange_pre (self : DisplayInfoImplementation) (host : Host)
    (eventtype : Source) :
    ResolutionChange (some self) host IARM_BUS_DSMGR_NAME
        IARM_EventId_t.IARM_BUS_DSMGR_EVENT_RES_PRECHANGE eventtype =
      (some self, ResolutionChangeImpl.loop self._observers) := by
  simp [ResolutionChange, ResolutionChangeImpl]

/-- C8: `VerticalFreq` reads the cache alone (it takes no device answer).  After a
POST-CHANGE event whose query returns an enumeration with table value `r` it
returns `r`; after a POST-CHANGE event whose query throws or returns an
enumeration outside the table, after every PRE-CHANGE event, and after every
`Register` or `Unregister` that returns, it returns what it returned before. -/
theorem C8_cached_frame_rate (self : DisplayInfoImplementation) (host : Host)
    (eventtype : Source) :
    (∀ e r, queryFrameRate host = some e → specFrameRateTable e = some r →
      (ResolutionChange (some self) host IARM_BUS_DSMGR_NAME
        IARM_EventId_t.IARM_BUS_DSMGR_EVENT_RES_POSTCHANGE eventtype).1.map VerticalFreq
        = some (ErrorCode.ERROR_NONE, r)) ∧
    (queryFrameRate host = none →
      (ResolutionChange (some self) host IARM_BUS_DSMGR_NAME
        IARM_EventId_t.IARM_BUS_DSMGR_EVENT_RES_POSTCHANGE eventtype).1.map VerticalFreq
        = some (VerticalFreq self)) ∧
    (∀ e, queryFrameRate host = some e → specFrameRateTable e = none →
      (ResolutionChange (some self) host IARM_BUS_DSMGR_NAME
        IARM_EventId_t.IARM_BUS_DSMGR_EVENT_RES_POSTCHANGE eventtype).1.map VerticalFreq
        = some (VerticalFreq self)) ∧
    (ResolutionChange (some self) host IARM_BUS_DSMGR_NAME
        IARM_EventId_t.IARM_BUS_DSMGR_EVENT_RES_PRECHANGE eventtype).1.map VerticalFreq
        = some (VerticalFreq self) ∧
    (∀ debug notification status next calls,
      Register debug self notification = some (status, next, calls) →
      VerticalFreq next = VerticalFreq self) ∧
    (∀ debug notification status next calls,
      Unregister debug self notification = some (status, next, calls) →
      VerticalFreq next = VerticalFreq self) := by
  rw [ResolutionChange_post, ResolutionChange_pre, UpdateFrameRate_eq_table]
  refine ⟨?_, ?_, ?_, rfl, ?_, ?_⟩
  · intro e r he hr
    simp [he, hr, VerticalFreq]
  · intro he
    simp [he, VerticalFreq]
  · intro e he hr
    simp [he, hr, VerticalFreq]
  · intro debug notification status next calls h
    rw [(Register_eq_some debug self next notification status calls h).2.1]
    rfl
  · intro debug notification status next calls h
    rw [(Unregister_eq_some debug self next notification status calls h).2.1]
    rfl

/-- C8 at a cache holding 60 and a display now running at 59.94 Hz: after the
POST-CHANGE event `VerticalFreq` returns 59; with the device query throwing it
still returns 60. -/
theorem C8_cached_frame_rate_witness :
    (ResolutionChange (some { _observers := [], _totalGpuRam := 0, _frameRate := 60 })
        (hostWith (hdmi0 [] 0 FrameRate.k59dot94) 0) IARM_BUS_DSMGR_NAME
        IARM_EventId_t.IARM_BUS_DSMGR_EVENT_RES_POSTCHANGE
        Source.PRE_RESOLUTION_CHANGE).1.map VerticalFreq = some (ErrorCode.ERROR_NONE, 59) ∧
    (ResolutionChange (some { _observers := [], _totalGpuRam := 0, _frameRate := 60 })
        (hostWith (hdmi0Disconnected dsHdcpProtocolVersion_t.dsHDCP_VERSION_MAX) 0)
        IARM_BUS_DSMGR_NAME IARM_EventId_t.IARM_BUS_DSMGR_EVENT_RES_POSTCHANGE
        Source.PRE_RESOLUTION_CHANGE).1.map VerticalFreq = some (ErrorCode.ERROR_NONE, 60) :=
  ⟨(C8_cached_frame_rate { _observers := [], _totalGpuRam := 0, _frameRate := 60 }
      (hostWith (hdmi0 [] 0 FrameRate.k59dot94) 0) Source.PRE_RESOLUTION_CHANGE).1
      FrameRate.k59dot94 59 rfl rfl,
    (C8_cached_frame_rate { _observers := [], _totalGpuRam := 0, _frameRate := 60 }
      (hostWith (hdmi0Disconnected dsHdcpProtocolVersion_t.dsHDCP_VERSION_MAX) 0)
      Source.PRE_RESOLUTION_CHANGE).2.1 rfl⟩

/-! ## Properties of the event fan-out and the observer registry -/

/-- Every call of the fan-out carries the POST-CHANGE tag, whatever event fired. -/
theorem ResolutionChangeImpl.loop_eq_map (observers : List Nat) :
    ResolutionChangeImpl.loop observers =
      observers.map (fun o => ObserverCall.Updated o Source.POST_RESOLUTION_CHANGE) := by
  induction observers with
  | nil => rfl
  | cons o rest ih => simp [ResolutionChangeImpl.loop, ih]

/-- C9: a PRE-CHANGE event delivered to an instance with the observers 7 and 8
calls `Updated` on both with the POST-CHANGE tag; the calls are the same as those
of a POST-CHANGE event. -/
theorem C9_pre_change_fans_out_post_tag :
    ResolutionChange (some { _observers := [7, 8], _totalGpuRam := 0, _frameRate := 60 })
        (hostWith (hdmi0 [] 0 FrameRate.k60) 0) IARM_BUS_DSMGR_NAME
        IARM_EventId_t.IARM_BUS_DSMGR_EVENT_RES_PRECHANGE Source.PRE_RESOLUTION_CHANGE =
      (some { _observers := [7, 8], _totalGpuRam := 0, _frameRate := 60 },
        [ObserverCall.Updated 7 Source.POST_RESOLUTION_CHANGE,
          ObserverCall.Updated 8 Source.POST_RESOLUTION_CHANGE]) ∧
    (ResolutionChange (some { _observers := [7, 8], _totalGpuRam := 0, _frameRate := 60 })
        (hostWith (hdmi0 [] 0 FrameRate.k60) 0) IARM_BUS_DSMGR_NAME
        IARM_EventId_t.IARM_BUS_DSMGR_EVENT_RES_PRECHANGE Source.PRE_RESOLUTION_CHANGE).2 =
      (ResolutionChange (some { _observers := [7, 8], _totalGpuRam := 0, _frameRate := 60 })
        (hostWith (hdmi0 [] 0 FrameRate.k60) 0) IARM_BUS_DSMGR_NAME
        IARM_EventId_t.IARM_BUS_DSMGR_EVENT_RES_POSTCHANGE Source.PRE_RESOLUTION_CHANGE).2 := by
  decide

theorem Register_of_mem_debug (self : DisplayInfoImplementation) (notification : Nat)
    (h : notification ∈ self._observers) : Register true self notification = none := by
  simp [Register, ASSERT, h]

theorem Register_of_not_mem (debug : Bool) (self : DisplayInfoImplementation)
    (notification : Nat) (h : notification ∉ self._observers) :
    Register debug self notification =
      some (ErrorCode.ERROR_NONE,
        { self with _observers := self._observers ++ [notification] },
        [ObserverCall.AddRef notification]) := by
  simp [Register, ASSERT, h]

theorem Unregister_of_not_mem_debug (self : DisplayInfoImplementation) (notification : Nat)
    (h : notification ∉ self._observers) : Unregister true self notification = none := by
  simp [Unregister, ASSERT, h]

theorem Unregister_of_not_mem_release (self : DisplayInfoImplementation) (notification : Nat)
    (h : notification ∉ self._observers) :
    Unregister false self notification = some (ErrorCode.ERROR_NONE, self, []) := by
  simp [Unregister, ASSERT, h]

/-- With assertions compiled in, no reachable registry holds an observer twice. -/
theorem Reachable.nodup_observers (self : DisplayInfoImplementation)
    (h : Reachable true self) : self._observers.Nodup := by
  induction h with
  | construct host initialized => exact List.nodup_nil
  | register notification status calls _ hreg ih =>
    obtain ⟨_, hnext, _, hnew⟩ := Register_eq_some _ _ _ _ _ _ hreg
    rw [hnext]
    show (_ ++ [notification]).Nodup
    rw [List.nodup_append]
    refine ⟨ih, List.nodup_singleton _, ?_⟩
    intro a ha hb
    rw [List.mem_singleton] at hb
    subst hb
    exact hnew rfl ha
  | unregister notification status calls _ hunreg ih =>
    obtain ⟨_, hnext, _⟩ := Unregister_eq_some _ _ _ _ _ _ hunreg
    rw [hnext]
    exact ih.erase notification
  | event host eventtype _ ih =>
    unfold ResolutionChangeImpl
    by_cases he : eventtype = Source.POST_RESOLUTION_CHANGE
    · simp only [he, if_true]
      exact ih
    · simp only [he, if_false]
      exact ih

/-- C10, as stated, fails when assertions are compiled out: `Register` of the
observer 5 on a registry that already holds 5 returns `ERROR_NONE` and adds a
second entry, a state reachable from the constructor whose registry holds 5
twice; and `Unregister` of 5 on an empty registry returns `ERROR_NONE`. -/
theorem C10_duplicate_register_accepted_without_assertions :
    Register false { _observers := [5], _totalGpuRam := 0, _frameRate := 0 } 5 =
      some (ErrorCode.ERROR_NONE, { _observers := [5, 5], _totalGpuRam := 0, _frameRate := 0 },
        [ObserverCall.AddRef 5]) ∧
    Unregister false { _observers := [], _totalGpuRam := 0, _frameRate := 0 } 5 =
      some (ErrorCode.ERROR_NONE, { _observers := [], _totalGpuRam := 0, _frameRate := 0 }, []) ∧
    Reachable false { _observers := [5, 5], _totalGpuRam := 0, _frameRate := 0 } ∧
    ¬ ([5, 5] : List Nat).Nodup := by
  refine ⟨by decide, by decide, ?_, by decide⟩
  have h0 : Reachable false { _observers := [], _totalGpuRam := 0, _frameRate := 0 } :=
    Reachable.construct (hostWith (hdmi0 [] 0 FrameRate.k60) 0) false
  have h1 : Reachable false { _observers := [5], _totalGpuRam := 0, _frameRate := 0 } :=
    Reachable.register 5 ErrorCode.ERROR_NONE [ObserverCall.AddRef 5] h0 (by decide)
  exact Reachable.register 5 ErrorCode.ERROR_NONE [ObserverCall.AddRef 5] h1 (by decide)

/-- C10, amended: with assertions compiled in, `Register` of an observer already in
the registry and `Unregister` of one not in it abort on the failed assertion,
`Register` of a new observer appends it, and every registry reachable through
calls that return holds each observer at most once; with assertions compiled
out, `Unregister` of an observer not in the registry returns success and
changes nothing. -/
theorem C10_registry_with_assertions (self : DisplayInfoImplementation) (notification : Nat) :
    (notification ∈ self._observers → Register true self notification = none) ∧
    (notification ∉ self._observers → Unregister true self notification = none) ∧
    (notification ∉ self._observers →
      Register true self notification =
        some (ErrorCode.ERROR_NONE,
          { self with _observers := self._observers ++ [notification] },
          [ObserverCall.AddRef notification])) ∧
    (Reachable true self → self._observers.Nodup) ∧
    (notification ∉ self._observers →
      Unregister false self notification = some (ErrorCode.ERROR_NONE, self, [])) :=
  ⟨Register_of_mem_debug self notification,
    Unregister_of_not_mem_debug self notification,
    Register_of_not_mem true self notification,
    Reachable.nodup_observers self,
    Unregister_of_not_mem_release self notification⟩

/-- C10, amended, at the registry `[5]` reached from the constructor by one
`Register`: registering 5 again aborts, unregistering 6 aborts, and the registry
has no duplicate. -/
theorem C10_registry_with_assertions_witness :
    Register true { _observers := [5], _totalGpuRam := 0, _frameRate := 0 } 5 = none ∧
    Unregister true { _observers := [5], _totalGpuRam := 0, _frameRate := 0 } 6 = none ∧
    ([5] : List Nat).Nodup ∧
    Unregister false { _observers := [5], _totalGpuRam := 0, _frameRate := 0 } 6 =
      some (ErrorCode.ERROR_NONE, { _observers := [5], _totalGpuRam := 0, _frameRate := 0 }, []) :=
  ⟨(C10_registry_with_assertions { _observers := [5], _totalGpuRam := 0, _frameRate := 0 } 5).1
      (by decide),
    (C10_registry_with_assertions { _observers := [5], _totalGpuRam := 0, _frameRate := 0 } 6).2.1
      (by decide),
    (C10_registry_with_assertions { _observers := [5], _totalGpuRam := 0, _frameRate := 0 } 5).2.2.2.1
      (Reachable.register 5 ErrorCode.ERROR_NONE [ObserverCall.AddRef 5]
        (Reachable.construct (hostWith (hdmi0 [] 0 FrameRate.k60) 0) false) (by decide)),
    (C10_registry_with_assertions { _observers := [5], _totalGpuRam := 0, _frameRate := 0 } 6).2.2.2.2
      (by decide)⟩

theorem Unregister_of_mem (debug : Bool) (self : DisplayInfoImplementation)
    (notification : Nat) (h : notification ∈ self._observers) :
    Unregister debug self notification =
      some (ErrorCode.ERROR_NONE,
        { self with _observers := self._observers.erase notification },
        [ObserverCall.Release notification]) := by
  simp [Unregister, ASSERT, h]

/-- Calls on distinct observers all return, and the registry they leave is the
list of the observers currently registered, in registration order, without a
duplicate. -/
theorem runCalls_of_distinct (debug : Bool) (calls : List RegistryCall) :
    ∀ self : DisplayInfoImplementation, self._observers.Nodup →
      distinctObservers self._observers calls →
      ∃ next, runCalls debug self calls = some next ∧
        next._observers = registeredAfter self._observers calls ∧
        next._observers.Nodup := by
  induction calls with
  | nil =>
    intro self hnd _
    exact ⟨self, rfl, rfl, hnd⟩
  | cons c rest ih =>
    intro self hnd hd
    cases c with
    | Register notification =>
      obtain ⟨hnew, hrest⟩ := hd
      have hnd2 : (self._observers ++ [notification]).Nodup := by
        rw [List.nodup_append]
        refine ⟨hnd, List.nodup_singleton _, ?_⟩
        intro a ha hb
        rw [List.mem_singleton] at hb
        subst hb
        exact hnew ha
      obtain ⟨next, h1, h2, h3⟩ :=
        ih { self with _observers := self._observers ++ [notification] } hnd2 hrest
      refine ⟨next, ?_, h2, h3⟩
      rw [runCalls, Register_of_not_mem debug self notification hnew]
      exact h1
    | Unregister notification =>
      obtain ⟨hold, hrest⟩ := hd
      have herase : self._observers.erase notification =
          self._observers.filter (fun o => o ≠ notification) := by
        rw [hnd.erase_eq_filter]
        congr 1
        funext o
        by_cases ho : o = notification <;> simp [ho]
      have hnd2 : (self._observers.erase notification).Nodup := hnd.erase notification
      have hrest2 : distinctObservers (self._observers.erase notification) rest := by
        rw [herase]
        exact hrest
      obtain ⟨next, h1, h2, h3⟩ :=
        ih { self with _observers := self._observers.erase notification } hnd2 hrest2
      refine ⟨next, ?_, ?_, h3⟩
      · rw [runCalls, Unregister_of_mem debug self notification hold]
        exact h1
      · rw [h2]
        show registeredAfter (self._observers.erase notification) rest = _
        rw [herase]
        rfl

theorem registeredAfter_append (calls : List RegistryCall) (c : RegistryCall) :
    ∀ current, registeredAfter current (calls ++ [c]) =
      registeredAfter (registeredAfter current calls) [c] := by
  induction calls with
  | nil => intro current; rfl
  | cons d rest ih =>
    intro current
    cases d with
    | Register notification => exact ih _
    | Unregister notification => exact ih _

/-- The fan-out of any bus event calls `Updated`, and nothing else, on the
observers of the registry in the order of the registry. -/
theorem ResolutionChange_updated (self : DisplayInfoImplementation) (host : Host)
    (owner : String) (eventId : IARM_EventId_t) (eventtype : Source) :
    (ResolutionChange (some self) host owner eventId eventtype).2.map updatedObserver =
      self._observers.map some := by
  simp only [ResolutionChange, ResolutionChangeImpl, ResolutionChangeImpl.loop_eq_map,
    List.map_map]
  rfl

theorem count_some_map_some (o : Nat) (l : List Nat) :
    List.count (some o) (l.map some) = List.count o l := by
  induction l with
  | nil => rfl
  | cons x rest ih =>
    by_cases hx : x = o
    · subst hx
      simp [ih]
    · have hne : ¬ (some x = some o) := fun hh => hx (Option.some.inj hh)
      simp [List.count_cons, ih, hx, hne]

/-- C11: every sequence of `Register` and `Unregister` calls on distinct observers,
made on a freshly constructed instance, returns; the fan-out of the bus event
that follows calls `Updated`, and nothing else, on exactly the observers
currently registered in registration order; each of them is called once and
every other observer not at all; an observer whose `Unregister` was the last call
is not among them. -/
theorem C11_fan_out_once_in_registration_order (debug : Bool) (host eventHost : Host)
    (initialized : Bool) (calls : List RegistryCall) (owner : String)
    (eventId : IARM_EventId_t) (eventtype : Source)
    (h : distinctObservers [] calls) :
    ∃ self, runCalls debug (DisplayInfoImplementation.construct host initialized) calls
        = some self ∧
      (ResolutionChange (some self) eventHost owner eventId eventtype).2.map updatedObserver
        = (registeredAfter [] calls).map some ∧
      (∀ o, List.count (some o)
          ((ResolutionChange (some self) eventHost owner eventId eventtype).2.map updatedObserver)
          = if o ∈ registeredAfter [] calls then 1 else 0) ∧
      (∀ pre o, calls = pre ++ [RegistryCall.Unregister o] → o ∉ registeredAfter [] calls) := by
  obtain ⟨self, hrun, hobs, hnd⟩ :=
    runCalls_of_distinct debug calls (DisplayInfoImplementation.construct host initialized)
      List.nodup_nil h
  have hobs2 : self._observers = registeredAfter [] calls := hobs
  refine ⟨self, hrun, ?_, ?_, ?_⟩
  · rw [ResolutionChange_updated, hobs2]
  · intro o
    rw [ResolutionChange_updated, hobs2, count_some_map_some]
    rw [hobs2] at hnd
    by_cases hm : o ∈ registeredAfter [] calls
    · rw [if_pos hm]
      exact List.count_eq_one_of_mem hnd hm
    · rw [if_neg hm]
      exact List.count_eq_zero_of_not_mem hm
  · intro pre o hcalls
    rw [hcalls, registeredAfter_append]
    show o ∉ (registeredAfter [] pre).filter (fun x => x ≠ o)
    simp

/-- C11 at three observers registered in the order 1, 2, 3 and then a POST-CHANGE
event: the callbacks go to 1, 2, 3 in that order, once each; and at observer 1
registered, observer 2 registered, observer 1 unregistered: only 2 is called. -/
theorem C11_fan_out_once_in_registration_order_witness :
    (∃ self, runCalls true
        (DisplayInfoImplementation.construct (hostWith (hdmi0 [] 0 FrameRate.k60) 0) true)
        [RegistryCall.Register 1, RegistryCall.Register 2, RegistryCall.Register 3] = some self ∧
      (ResolutionChange (some self) (hostWith (hdmi0 [] 0 FrameRate.k60) 0) IARM_BUS_DSMGR_NAME
        IARM_EventId_t.IARM_BUS_DSMGR_EVENT_RES_POSTCHANGE
        Source.PRE_RESOLUTION_CHANGE).2.map updatedObserver = [some 1, some 2, some 3]) ∧
    (∃ self, runCalls false
        (DisplayInfoImplementation.construct (hostWith (hdmi0 [] 0 FrameRate.k60) 0) true)
        [RegistryCall.Register 1, RegistryCall.Register 2, RegistryCall.Unregister 1] = some self ∧
      (ResolutionChange (some self) (hostWith (hdmi0 [] 0 FrameRate.k60) 0) IARM_BUS_DSMGR_NAME
        IARM_EventId_t.IARM_BUS_DSMGR_EVENT_RES_POSTCHANGE
        Source.PRE_RESOLUTION_CHANGE).2.map updatedObserver = [some 2]) := by
  constructor
  · obtain ⟨self, h1, h2, _⟩ := C11_fan_out_once_in_registration_order true
      (hostWith (hdmi0 [] 0 FrameRate.k60) 0) (hostWith (hdmi0 [] 0 FrameRate.k60) 0) true
      [RegistryCall.Register 1, RegistryCall.Register 2, RegistryCall.Register 3]
      IARM_BUS_DSMGR_NAME IARM_EventId_t.IARM_BUS_DSMGR_EVENT_RES_POSTCHANGE
      Source.PRE_RESOLUTION_CHANGE (by simp [distinctObservers])
    exact ⟨self, h1, h2⟩
  · obtain ⟨self, h1, h2, _⟩ := C11_fan_out_once_in_registration_order false
      (hostWith (hdmi0 [] 0 FrameRate.k60) 0) (hostWith (hdmi0 [] 0 FrameRate.k60) 0) true
      [RegistryCall.Register 1, RegistryCall.Register 2, RegistryCall.Unregister 1]
      IARM_BUS_DSMGR_NAME IARM_EventId_t.IARM_BUS_DSMGR_EVENT_RES_POSTCHANGE
      Source.PRE_RESOLUTION_CHANGE (by simp [distinctObservers])
    exact ⟨self, h1, h2⟩

/-! ## Properties of the HDCP tier decoding and encoding -/

/-- C12: on a connected port the `switch` of `HDCPProtection` (get) and the
`switch` of `HDCPProtection` (set) are inverse to each other between the versions
1X, 2X, MAX and the tiers `HDCP_1X`, `HDCP_2X`, `HDCP_AUTO`, with MAX going to
`HDCP_AUTO`: encoding the decoded version gives the version back, decoding the
encoded tier gives the tier back, and the same holds through the two operations
(a get followed by a set hands the same version to the device, and a get after
the device took the version of a set returns the tier that was set). -/
theorem C12_hdcp_round_trip (host : Host) (vPort : VideoOutputPort)
    (value : HDCPProtectionType)
    (hne : (PortName host "").2 ≠ "")
    (hport : host.getVideoOutputPort (PortName host "").2 = some vPort) :
    (∀ v, v ∈ [dsHdcpProtocolVersion_t.dsHDCP_VERSION_1X,
          dsHdcpProtocolVersion_t.dsHDCP_VERSION_2X,
          dsHdcpProtocolVersion_t.dsHDCP_VERSION_MAX] →
      HDCPProtectionSet.encode (HDCPProtection.decode v value) = v ∧
      HDCPProtection.decode v value ∈ [HDCPProtectionType.HDCP_1X,
        HDCPProtectionType.HDCP_2X, HDCPProtectionType.HDCP_AUTO]) ∧
    (∀ t, t ∈ [HDCPProtectionType.HDCP_1X, HDCPProtectionType.HDCP_2X,
          HDCPProtectionType.HDCP_AUTO] →
      HDCPProtection.decode (HDCPProtectionSet.encode t) value = t ∧
      HDCPProtectionSet.encode t ∈ [dsHdcpProtocolVersion_t.dsHDCP_VERSION_1X,
        dsHdcpProtocolVersion_t.dsHDCP_VERSION_2X,
        dsHdcpProtocolVersion_t.dsHDCP_VERSION_MAX]) ∧
    HDCPProtection.decode dsHdcpProtocolVersion_t.dsHDCP_VERSION_MAX value
      = HDCPProtectionType.HDCP_AUTO ∧
    HDCPProtectionSet.encode HDCPProtectionType.HDCP_AUTO
      = dsHdcpProtocolVersion_t.dsHDCP_VERSION_MAX ∧
    (∀ v, v ∈ [dsHdcpProtocolVersion_t.dsHDCP_VERSION_1X,
          dsHdcpProtocolVersion_t.dsHDCP_VERSION_2X,
          dsHdcpProtocolVersion_t.dsHDCP_VERSION_MAX] →
      vPort.GetHdmiPreference = some v →
      HDCPProtectionSet host (HDCPProtection host value).2 = (ErrorCode.ERROR_NONE, some v)) ∧
    (∀ t, t ∈ [HDCPProtectionType.HDCP_1X, HDCPProtectionType.HDCP_2X,
          HDCPProtectionType.HDCP_AUTO] →
      vPort.GetHdmiPreference = (HDCPProtectionSet host t).2 →
      HDCPProtection host value = (ErrorCode.ERROR_NONE, t)) := by
  have hset : ∀ t, HDCPProtectionSet host t =
      (ErrorCode.ERROR_NONE, some (HDCPProtectionSet.encode t)) := by
    intro t
    simp [HDCPProtectionSet, hne, hport]
  have hget : ∀ v, vPort.GetHdmiPreference = some v →
      HDCPProtection host value = (ErrorCode.ERROR_NONE, HDCPProtection.decode v value) := by
    intro v hv
    simp [HDCPProtection, hne, hport, hv]
  refine ⟨?_, ?_, rfl, rfl, ?_, ?_⟩
  · intro v hv
    simp only [List.mem_cons, List.mem_singleton, List.not_mem_nil, or_false] at hv
    rcases hv with hv | hv | hv <;> subst hv <;>
      simp [HDCPProtection.decode, HDCPProtectionSet.encode]
  · intro t ht
    simp only [List.mem_cons, List.mem_singleton, List.not_mem_nil, or_false] at ht
    rcases ht with ht | ht | ht <;> subst ht <;>
      simp [HDCPProtection.decode, HDCPProtectionSet.encode]
  · intro v hv hpref
    rw [hget v hpref, hset]
    simp only [List.mem_cons, List.mem_singleton, List.not_mem_nil, or_false] at hv
    rcases hv with hv | hv | hv <;> subst hv <;> rfl
  · intro t ht hpref
    rw [hset] at hpref
    rw [hget _ hpref]
    simp only [List.mem_cons, List.mem_singleton, List.not_mem_nil, or_false] at ht
    rcases ht with ht | ht | ht <;> subst ht <;> rfl

/-- C12 at a connected `HDMI0` whose preference is 2X: the get returns `HDCP_2X`
and the set of that value hands 2X to the device; and at one whose preference is
MAX after `HDCP_AUTO` was set: the get returns `HDCP_AUTO`. -/
theorem C12_hdcp_round_trip_witness :
    HDCPProtectionSet
        (hostWith (hdmi0WithPreference dsHdcpProtocolVersion_t.dsHDCP_VERSION_2X) 0)
        (HDCPProtection
          (hostWith (hdmi0WithPreference dsHdcpProtocolVersion_t.dsHDCP_VERSION_2X) 0)
          HDCPProtectionType.HDCP_Unencrypted).2
      = (ErrorCode.ERROR_NONE, some dsHdcpProtocolVersion_t.dsHDCP_VERSION_2X) ∧
    HDCPProtection
        (hostWith (hdmi0WithPreference dsHdcpProtocolVersion_t.dsHDCP_VERSION_MAX) 0)
        HDCPProtectionType.HDCP_Unencrypted
      = (ErrorCode.ERROR_NONE, HDCPProtectionType.HDCP_AUTO) :=
  ⟨(C12_hdcp_round_trip
      (hostWith (hdmi0WithPreference dsHdcpProtocolVersion_t.dsHDCP_VERSION_2X) 0)
      (hdmi0WithPreference dsHdcpProtocolVersion_t.dsHDCP_VERSION_2X)
      HDCPProtectionType.HDCP_Unencrypted (by decide) rfl).2.2.2.2.1
      dsHdcpProtocolVersion_t.dsHDCP_VERSION_2X (by decide) rfl,
    (C12_hdcp_round_trip
      (hostWith (hdmi0WithPreference dsHdcpProtocolVersion_t.dsHDCP_VERSION_MAX) 0)
      (hdmi0WithPreference dsHdcpProtocolVersion_t.dsHDCP_VERSION_MAX)
      HDCPProtectionType.HDCP_Unencrypted (by decide) rfl).2.2.2.2.2
      HDCPProtectionType.HDCP_AUTO (by decide) rfl⟩

/-! ## The decoded HDR list in closed form -/

theorem pushIf_eq_append (cond : Bool) (tag : HDRType) (l : List HDRType) :
    pushIf cond tag l = l ++ (if cond then [tag] else []) := by
  cases cond <;> simp [pushIf]

theorem land_zero_left (c : Int) : Int.land 0 c = 0 := by
  cases c with
  | ofNat n =>
    show ((Nat.land 0 n : Nat) : Int) = 0
    have h : Nat.land 0 n = 0 := Nat.zero_and n
    rw [h]
    rfl
  | negSucc n =>
    show ((Nat.ldiff 0 n : Nat) : Int) = 0
    have h : Nat.ldiff 0 n = 0 := by
      unfold Nat.ldiff
      rw [Nat.bitwise_zero_left]
      rfl
    rw [h]
    rfl

/-- The list that the six tests build, as one concatenation in test order. -/
theorem hdrCapabilitiesOf_eq_append (ds : DsHDRStandard) (capabilities : Int) :
    hdrCapabilitiesOf ds capabilities =
      (if capabilities = 0 then [HDRType.HDR_OFF] else []) ++
      (if Int.land capabilities ds.dsHDRSTANDARD_HDR10 ≠ 0 then [HDRType.HDR_10] else []) ++
      (if Int.land capabilities ds.dsHDRSTANDARD_HLG ≠ 0 then [HDRType.HDR_HLG] else []) ++
      (if Int.land capabilities ds.dsHDRSTANDARD_DolbyVision ≠ 0
        then [HDRType.HDR_DOLBYVISION] else []) ++
      (if Int.land capabilities ds.dsHDRSTANDARD_TechnicolorPrime ≠ 0
        then [HDRType.HDR_TECHNICOLOR] else []) ++
      (if Int.land capabilities ds.dsHDRSTANDARD_Invalid ≠ 0 then [HDRType.HDR_OFF] else []) := by
  simp only [hdrCapabilitiesOf, pushIf_eq_append, List.nil_append, decide_eq_true_eq]

theorem hdrCapabilitiesOf_zero (ds : DsHDRStandard) :
    hdrCapabilitiesOf ds 0 = [HDRType.HDR_OFF] := by
  rw [hdrCapabilitiesOf_eq_append]
  simp [land_zero_left]

/-- No mask passes both the test for "no capability" and the test for the invalid
bit, so `HDR_OFF` is pushed at most once. -/
theorem count_off_hdrCapabilitiesOf (ds : DsHDRStandard) (capabilities : Int) :
    List.count HDRType.HDR_OFF (hdrCapabilitiesOf ds capabilities) ≤ 1 := by
  rw [hdrCapabilitiesOf_eq_append]
  by_cases h0 : capabilities = 0
  · subst h0
    simp [land_zero_left]
  · simp only [h0, if_false, List.nil_append, List.count_append]
    split_ifs <;> simp

/-- How often `HDR_OFF` stands in the list the six tests build: once when the mask
is zero or has the invalid bit, not at all otherwise. -/
theorem count_off_hdrCapabilitiesOf_eq (ds : DsHDRStandard) (capabilities : Int) :
    List.count HDRType.HDR_OFF (hdrCapabilitiesOf ds capabilities) =
      if capabilities = 0 ∨ Int.land capabilities ds.dsHDRSTANDARD_Invalid ≠ 0 then 1 else 0 := by
  rw [hdrCapabilitiesOf_eq_append]
  by_cases h0 : capabilities = 0
  · subst h0
    simp [land_zero_left]
  · simp only [h0, if_false, List.nil_append, List.count_append, false_or]
    split_ifs <;> simp

/-- C13: for every mask that the device layer reports for the TV and for the STB,
`TVCapabilities` and `STBCapabilities` build the same list, the concatenation in
this order of `[HDR_OFF]` if the mask is 0, `[HDR_10]` if the HDR10 bit is set,
`[HDR_HLG]` if the HLG bit is set, `[HDR_DOLBYVISION]` if the DolbyVision bit is
set, `[HDR_TECHNICOLOR]` if the Technicolor bit is set and `[HDR_OFF]` if the
invalid bit is set; mask 0 gives `[HDR_OFF]`; the list is what `type` iterates
over, with status `ERROR_NONE`, whenever `Create` yields an object. -/
theorem C13_hdr_list_in_test_order (ds : DsHDRStandard) (host : Host) (vPort : VideoOutputPort)
    (capabilities : Int) (created : Bool)
    (hport : host.getVideoOutputPort "HDMI0" = some vPort)
    (hconn : vPort.isDisplayConnected = some true)
    (htv : vPort.getTVHDRCapabilities = some capabilities)
    (hstb : host.getHDRCapabilities = some capabilities) :
    TVCapabilities ds host created = STBCapabilities ds host created ∧
    ((TVCapabilities ds host created).1, (TVCapabilities ds host created).2.1) =
      (if created then (ErrorCode.ERROR_NONE, some (TVCapabilities ds host created).2.2)
        else (ErrorCode.ERROR_GENERAL, none)) ∧
    (TVCapabilities ds host created).2.2 =
      (if capabilities = 0 then [HDRType.HDR_OFF] else []) ++
      (if Int.land capabilities ds.dsHDRSTANDARD_HDR10 ≠ 0 then [HDRType.HDR_10] else []) ++
      (if Int.land capabilities ds.dsHDRSTANDARD_HLG ≠ 0 then [HDRType.HDR_HLG] else []) ++
      (if Int.land capabilities ds.dsHDRSTANDARD_DolbyVision ≠ 0
        then [HDRType.HDR_DOLBYVISION] else []) ++
      (if Int.land capabilities ds.dsHDRSTANDARD_TechnicolorPrime ≠ 0
        then [HDRType.HDR_TECHNICOLOR] else []) ++
      (if Int.land capabilities ds.dsHDRSTANDARD_Invalid ≠ 0 then [HDRType.HDR_OFF] else []) ∧
    (capabilities = 0 → (TVCapabilities ds host created).2.2 = [HDRType.HDR_OFF]) := by
  rw [TVCapabilities_connected ds host vPort capabilities created hport hconn htv,
    STBCapabilities_answered ds host capabilities created hstb]
  refine ⟨rfl, ?_, hdrCapabilitiesOf_eq_append ds capabilities, ?_⟩
  · cases created <;> rfl
  · intro h0
    subst h0
    exact hdrCapabilitiesOf_zero ds

/-- C13 at the masks `0x0` and `HDR10 | invalid` (`0x81`) reported for a connected
display: the lists are `[HDR_OFF]` and `[HDR_10, HDR_OFF]`, the same for the TV
and for the STB. -/
theorem C13_hdr_list_in_test_order_witness :
    (TVCapabilities dsTypes (hostWith (hdmi0 [] 0 FrameRate.k60) 0) true).2.2
      = [HDRType.HDR_OFF] ∧
    TVCapabilities dsTypes (hostWith (hdmi0 [] 0 FrameRate.k60) 0) true
      = STBCapabilities dsTypes (hostWith (hdmi0 [] 0 FrameRate.k60) 0) true ∧
    (TVCapabilities dsTypes (hostWith (hdmi0 [] 129 FrameRate.k60) 129) true).2.2
      = [HDRType.HDR_10, HDRType.HDR_OFF] ∧
    TVCapabilities dsTypes (hostWith (hdmi0 [] 129 FrameRate.k60) 129) true
      = STBCapabilities dsTypes (hostWith (hdmi0 [] 129 FrameRate.k60) 129) true :=
  ⟨(C13_hdr_list_in_test_order dsTypes (hostWith (hdmi0 [] 0 FrameRate.k60) 0)
      (hdmi0 [] 0 FrameRate.k60) 0 true rfl rfl rfl rfl).2.2.2 rfl,
    (C13_hdr_list_in_test_order dsTypes (hostWith (hdmi0 [] 0 FrameRate.k60) 0)
      (hdmi0 [] 0 FrameRate.k60) 0 true rfl rfl rfl rfl).1,
    (C13_hdr_list_in_test_order dsTypes (hostWith (hdmi0 [] 129 FrameRate.k60) 129)
      (hdmi0 [] 129 FrameRate.k60) 129 true rfl rfl rfl rfl).2.2.1.trans (by decide),
    (C13_hdr_list_in_test_order dsTypes (hostWith (hdmi0 [] 129 FrameRate.k60) 129)
      (hdmi0 [] 129 FrameRate.k60) 129 true rfl rfl rfl rfl).1⟩

/-- C14, as stated, fails: for no values of the enumerators is there a mask that
passes both the "no capability" test and the "invalid" test, and for no device
answer does the list of `TVCapabilities` or of `STBCapabilities` hold `HDR_OFF`
twice. -/
theorem C14_double_off_not_reproducible :
    (¬ ∃ (ds : DsHDRStandard) (capabilities : Int),
      capabilities = 0 ∧ Int.land capabilities ds.dsHDRSTANDARD_Invalid ≠ 0) ∧
    (¬ ∃ (ds : DsHDRStandard) (host : Host) (created : Bool),
      List.count HDRType.HDR_OFF (TVCapabilities ds host created).2.2 = 2 ∨
      List.count HDRType.HDR_OFF (STBCapabilities ds host created).2.2 = 2) := by
  constructor
  · rintro ⟨ds, capabilities, h0, hinv⟩
    subst h0
    exact hinv (land_zero_left _)
  · rintro ⟨ds, host, created, h | h⟩
    · have hle := count_off_hdrCapabilitiesOf ds
        (capabilitiesAfterQuery ds
          (match host.getVideoOutputPort "HDMI0" with
            | none => none
            | some vPort =>
              match vPort.isDisplayConnected with
              | none => none
              | some false => none
              | some true => vPort.getTVHDRCapabilities))
      have h2 : List.count HDRType.HDR_OFF (TVCapabilities ds host created).2.2 ≤ 1 := hle
      omega
    · have h2 : List.count HDRType.HDR_OFF (STBCapabilities ds host created).2.2 ≤ 1 :=
        count_off_hdrCapabilitiesOf ds (capabilitiesAfterQuery ds host.getHDRCapabilities)
      omega

/-- C14, amended: the "no capability" test and the "invalid" test exclude each
other (a zero mask has no bit in common with the invalid enumerator).  For every
mask that the device layer reports, the list built by `TVCapabilities` and the
list built by `STBCapabilities` hold `HDR_OFF` exactly once when the mask is zero
or has the invalid bit set and not at all otherwise; for every device answer
whatsoever they hold it at most once; a zero mask gives exactly `[HDR_OFF]`. -/
theorem C14_off_once_iff_zero_or_invalid (ds : DsHDRStandard) (host : Host)
    (vPort : VideoOutputPort) (capabilities : Int) (created : Bool)
    (hport : host.getVideoOutputPort "HDMI0" = some vPort)
    (hconn : vPort.isDisplayConnected = some true)
    (htv : vPort.getTVHDRCapabilities = some capabilities)
    (hstb : host.getHDRCapabilities = some capabilities) :
    ¬ (capabilities = 0 ∧ Int.land capabilities ds.dsHDRSTANDARD_Invalid ≠ 0) ∧
    List.count HDRType.HDR_OFF (TVCapabilities ds host created).2.2 =
      (if capabilities = 0 ∨ Int.land capabilities ds.dsHDRSTANDARD_Invalid ≠ 0
        then 1 else 0) ∧
    List.count HDRType.HDR_OFF (STBCapabilities ds host created).2.2 =
      (if capabilities = 0 ∨ Int.land capabilities ds.dsHDRSTANDARD_Invalid ≠ 0
        then 1 else 0) ∧
    (∀ (anyHost : Host) (anyCreated : Bool),
      List.count HDRType.HDR_OFF (TVCapabilities ds anyHost anyCreated).2.2 ≤ 1 ∧
      List.count HDRType.HDR_OFF (STBCapabilities ds anyHost anyCreated).2.2 ≤ 1) ∧
    (∀ anyMask : Int, List.count HDRType.HDR_OFF (hdrCapabilitiesOf ds anyMask) ≤ 1) ∧
    hdrCapabilitiesOf ds 0 = [HDRType.HDR_OFF] := by
  rw [TVCapabilities_connected ds host vPort capabilities created hport hconn htv,
    STBCapabilities_answered ds host capabilities created hstb]
  refine ⟨?_, count_off_hdrCapabilitiesOf_eq ds capabilities,
    count_off_hdrCapabilitiesOf_eq ds capabilities, ?_,
    count_off_hdrCapabilitiesOf ds, hdrCapabilitiesOf_zero ds⟩
  · rintro ⟨h0, hinv⟩
    subst h0
    exact hinv (land_zero_left _)
  · intro anyHost anyCreated
    exact ⟨count_off_hdrCapabilitiesOf ds _, count_off_hdrCapabilitiesOf ds _⟩

/-- C14, amended, at the masks `0x80` (invalid bit alone), `0x0` and `0x01` (HDR10
alone) reported for a connected display: `HDR_OFF` stands once, once and not at
all in the list, for the TV and for the STB. -/
theorem C14_off_once_iff_zero_or_invalid_witness :
    (List.count HDRType.HDR_OFF
        (TVCapabilities dsTypes (hostWith (hdmi0 [] 128 FrameRate.k60) 128) true).2.2 = 1 ∧
      List.count HDRType.HDR_OFF
        (STBCapabilities dsTypes (hostWith (hdmi0 [] 128 FrameRate.k60) 128) true).2.2 = 1) ∧
    (List.count HDRType.HDR_OFF
        (TVCapabilities dsTypes (hostWith (hdmi0 [] 0 FrameRate.k60) 0) true).2.2 = 1 ∧
      List.count HDRType.HDR_OFF
        (STBCapabilities dsTypes (hostWith (hdmi0 [] 0 FrameRate.k60) 0) true).2.2 = 1) ∧
    (List.count HDRType.HDR_OFF
        (TVCapabilities dsTypes (hostWith (hdmi0 [] 1 FrameRate.k60) 1) true).2.2 = 0 ∧
      List.count HDRType.HDR_OFF
        (STBCapabilities dsTypes (hostWith (hdmi0 [] 1 FrameRate.k60) 1) true).2.2 = 0) :=
  ⟨⟨(C14_off_once_iff_zero_or_invalid dsTypes (hostWith (hdmi0 [] 128 FrameRate.k60) 128)
        (hdmi0 [] 128 FrameRate.k60) 128 true rfl rfl rfl rfl).2.1.trans (by decide),
      (C14_off_once_iff_zero_or_invalid dsTypes (hostWith (hdmi0 [] 128 FrameRate.k60) 128)
        (hdmi0 [] 128 FrameRate.k60) 128 true rfl rfl rfl rfl).2.2.1.trans (by decide)⟩,
    ⟨(C14_off_once_iff_zero_or_invalid dsTypes (hostWith (hdmi0 [] 0 FrameRate.k60) 0)
        (hdmi0 [] 0 FrameRate.k60) 0 true rfl rfl rfl rfl).2.1.trans (by decide),
      (C14_off_once_iff_zero_or_invalid dsTypes (hostWith (hdmi0 [] 0 FrameRate.k60) 0)
        (hdmi0 [] 0 FrameRate.k60) 0 true rfl rfl rfl rfl).2.2.1.trans (by decide)⟩,
    ⟨(C14_off_once_iff_zero_or_invalid dsTypes (hostWith (hdmi0 [] 1 FrameRate.k60) 1)
        (hdmi0 [] 1 FrameRate.k60) 1 true rfl rfl rfl rfl).2.1.trans (by decide),
      (C14_off_once_iff_zero_or_invalid dsTypes (hostWith (hdmi0 [] 1 FrameRate.k60) 1)
        (hdmi0 [] 1 FrameRate.k60) 1 true rfl rfl rfl rfl).2.2.1.trans (by decide)⟩⟩

end DisplayInfo
